import Mathlib

/-!
# go-jira-simple-cli: a shallow embedding of `main.go`

The program is a sequential command-line tool.  It talks to three kinds of
collaborators: the parsed command-line flags, standard input, and the remote
issue tracker reached through the `go-jira` client.  The embedding threads an
explicit `World` (unread standard input and the history of remote calls) through
every function and collects the observable events of a run in a trace.

* Strings are Lean `String`s (standard input is taken to be valid UTF-8).
* The remote service is an arbitrary deterministic oracle: each reply may depend
  on the whole history of earlier calls and on the current request.
* The flags are the values that `flag.Parse()` has stored; `strings.ToLower` is a
  parameter `toLower` of the loop, so nothing is assumed about it.
* `os.Exit` and a run-time panic end the process; both are outcomes of `Proc`.
* The `for` loop of `main` has no bound, so `subtaskLoop` takes a fuel argument
  that counts loop iterations; the outcome `Outcome.running` says that the
  process was still inside the loop when the fuel ran out.
-/

namespace JiraCli

/-! ## Data model -/

/-- The `Issue` struct of `main.go`. -/
structure Issue where
  Description : String
  Type_ : String
  ProjectKey : String
  Summary : String
  Priority : String
  AssigneeID : String
deriving DecidableEq

/-- The `jira.Issue` value that `CreateNewIssue` builds and submits.  Only the
fields of `jira.IssueFields` that the program can populate are kept, together
with the `Assignee` field, which the program never sets: `TypeName` is
`Fields.Type.Name`, `ProjectKey` is `Fields.Project.Key`, `PriorityName` is
`Fields.Priority.Name`, `Parent` is the `ID` of `Fields.Parent` (`none` for a nil
pointer) and `Assignee` is the account id of `Fields.Assignee` (`none` for a nil
pointer). -/
structure Payload where
  Description : String
  TypeName : String
  ProjectKey : String
  Summary : String
  PriorityName : String
  Parent : Option String
  Assignee : Option String
deriving DecidableEq

/-- The fields of the `*jira.Issue` returned by `Issue.Create` that the program
reads. -/
structure Created where
  ID : String
  Key : String
deriving DecidableEq

/-- The result of `js.Client.Issue.Create(&i)`, a triple
`(createdIssue, res, err)`.  `ok` is `err == nil`.  In `error err res` the
component `res` is the body of the HTTP response, and `none` when the response
pointer is nil (no HTTP response is available, as for a transport failure). -/
inductive CreateReply where
  | ok (issue : Created)
  | error (err : String) (res : Option String)
deriving DecidableEq

/-- A request sent to the remote service. -/
inductive Call where
  | getSelf
  | create (i : Payload)
  | updateAssignee (issueID : String) (accountID : String)
deriving DecidableEq

/-- The remote service as seen through the `go-jira` client.  Every operation
receives the history of the calls made before it.  `GetSelf` yields the display
name or an error, `UpdateAssignee` yields `some err` when it fails. -/
structure Remote where
  GetSelf : List Call → Except String String
  Create : List Call → Payload → CreateReply
  UpdateAssignee : List Call → String → String → Option String

/-- Observable events of a run.  `println s` is a line `s` written by
`fmt.Println`; the two `Printf` dumps keep the dumped value; `prompt text input`
is one call of `promptForInput`: `text` was printed and `ReadString` returned
`input`; `enter` marks a call of `CreateNewIssue` with its two arguments; the
last three are the remote calls together with their replies. -/
inductive Event where
  | println (s : String)
  | payloadDump (i : Payload)
  | createdDump (c : Created)
  | prompt (promptText : String) (input : String)
  | enter (issue : Issue) (parentID : String)
  | getSelf (reply : Except String String)
  | create (i : Payload) (reply : CreateReply)
  | updateAssignee (issueID : String) (accountID : String) (err : Option String)

instance : DecidableEq (Except String String) := fun a b =>
  match a, b with
  | .ok x, .ok y => if h : x = y then isTrue (by rw [h]) else isFalse (fun e => h (by cases e; rfl))
  | .error x, .error y =>
    if h : x = y then isTrue (by rw [h]) else isFalse (fun e => h (by cases e; rfl))
  | .ok _, .error _ => isFalse (fun e => by cases e)
  | .error _, .ok _ => isFalse (fun e => by cases e)

deriving instance DecidableEq for Event

/-- The event is a remote call. -/
def Event.isRemote : Event → Bool
  | .getSelf _ => true
  | .create _ _ => true
  | .updateAssignee _ _ _ => true
  | _ => false

/-- The event is a remote call that failed. -/
def Event.failed : Event → Bool
  | .getSelf (.error _) => true
  | .create _ (.error _ _) => true
  | .updateAssignee _ _ (some _) => true
  | _ => false

/-- The event is a prompt on standard input. -/
def Event.isPrompt : Event → Bool
  | .prompt _ _ => true
  | _ => false

/-- How a process stands at the end of an observation. -/
inductive Outcome where
  /-- still inside the subtask loop when the fuel ran out -/
  | running
  /-- ended by `os.Exit code`, or by returning from `main` (`code = 0`) -/
  | exited (code : Nat)
  /-- ended by a run-time panic (nil pointer dereference) -/
  | panicked
deriving DecidableEq

/-- Exit status of the process; the Go runtime ends a panicking program with
status 2. -/
def Outcome.status : Outcome → Option Nat
  | .running => none
  | .exited code => some code
  | .panicked => some 2

/-- The part of the outside world that the program changes: `stdin` is the
sequence of chunks that the successive `Read` calls on `os.Stdin` will return
(an empty chunk is a read that returns no data, that is end of input; after the
last chunk every read reports end of input), `calls` the remote calls made so
far. -/
structure World where
  stdin : List String
  calls : List Call
deriving DecidableEq

/-- Result of running a piece of the program: it either returns a value or ends
the process; in both cases it leaves a world and the events it produced. -/
inductive Res (α : Type) where
  | ok (a : α) (w : World) (out : List Event)
  | stop (o : Outcome) (w : World) (out : List Event)

/-- Events produced. -/
def Res.out {α : Type} : Res α → List Event
  | .ok _ _ out => out
  | .stop _ _ out => out

/-- Put earlier events in front of a result. -/
def Res.after {α : Type} (pre : List Event) : Res α → Res α
  | .ok a w out => .ok a w (pre ++ out)
  | .stop o w out => .stop o w (pre ++ out)

/-- A piece of sequential Go code. -/
def Proc (α : Type) : Type := World → Res α

/-- Sequential composition: a process that has ended runs nothing more. -/
def Proc.bind {α β : Type} (m : Proc α) (f : α → Proc β) : Proc β := fun w =>
  match m w with
  | .ok a w1 out1 => (f a w1).after out1
  | .stop o w1 out1 => .stop o w1 out1

instance : Monad Proc where
  pure a := fun w => .ok a w []
  bind := Proc.bind

/-- Produce one event. -/
def emit (e : Event) : Proc Unit := fun w => .ok () w [e]

/-- The call `fmt.Println(s)`. -/
def println (s : String) : Proc Unit := emit (.println s)

/-- The call `os.Exit(code)`. -/
def osExit {α : Type} (code : Nat) : Proc α := fun w => .stop (.exited code) w []

/-- A run-time panic. -/
def goPanic {α : Type} : Proc α := fun w => .stop .panicked w []

/-- The fuel for the loop ran out. -/
def outOfFuel {α : Type} : Proc α := fun w => .stop .running w []

/-! ## Library functions used by the program -/

/-- The predicate `unicode.IsSpace` of the Go library. -/
def isSpace (c : Char) : Bool :=
  c.toNat ∈ [0x09, 0x0A, 0x0B, 0x0C, 0x0D, 0x20, 0x85, 0xA0, 0x1680, 0x2028, 0x2029, 0x202F,
    0x205F, 0x3000] || (0x2000 ≤ c.toNat && c.toNat ≤ 0x200A)

/-- The function `strings.TrimSpace`: leading and trailing white space removed. -/
def TrimSpace (s : String) : String :=
  ⟨((s.data.dropWhile isSpace).reverse.dropWhile isSpace).reverse⟩

/-- The characters up to and including the first line feed, if there is one. -/
def throughNewline : List Char → Option (List Char)
  | [] => none
  | c :: cs => if c = '\n' then some [c] else (throughNewline cs).map (c :: ·)

/-- The call `bufio.NewReader(os.Stdin).ReadString('\n')` on a fresh reader (the
error result is dropped, as the program ignores it).  The reader fills its
buffer with one `Read` after the other until the buffered data holds a line feed
or a read reports end of input; it returns the data up to and including the
line feed (all the data read, when there is none).  What the buffer holds after
the line feed is lost with the reader.  The result is the string and the chunks
left on standard input. -/
def ReadString : List String → String × List String
  | [] => ("", [])
  | c :: rest =>
    if c = "" then ("", rest)
    else
      match throughNewline c.data with
      | some line => (⟨line⟩, rest)
      | none => (c ++ (ReadString rest).1, (ReadString rest).2)

/-! ## The program -/

/-- The parsed command-line flags (the values after `flag.Parse()`). -/
structure Flags where
  description : String
  issueType : String
  projectKey : String
  summary : String
  priority : String
  assigneeID : String
  createSubtasks : Bool
deriving DecidableEq

/-- What the process environment decides before the first remote call:
`dotenvErr` is the result of `godotenv.Load(".env")`, `newClientErr` the error
result of `jira.NewClient` (which parses `JIRA_URL`); `none` is a nil error. -/
structure Env where
  dotenvErr : Option String
  newClientErr : Option String

/-- The function `init`. -/
def init (env : Env) : Proc Unit := do
  if env.dotenvErr ≠ none then
    println ".env file missing"

/-- The call `client.User.GetSelf()`. -/
def GetSelf (remote : Remote) : Proc (Except String String) := fun w =>
  .ok (remote.GetSelf w.calls) { w with calls := w.calls ++ [.getSelf] }
    [.getSelf (remote.GetSelf w.calls)]

/-- The call `js.Client.Issue.Create(&i)`. -/
def Create (remote : Remote) (i : Payload) : Proc CreateReply := fun w =>
  .ok (remote.Create w.calls i) { w with calls := w.calls ++ [.create i] }
    [.create i (remote.Create w.calls i)]

/-- The call `js.Client.Issue.UpdateAssignee(issueID, &jira.User{AccountID: accountID})`. -/
def UpdateAssignee (remote : Remote) (issueID accountID : String) : Proc (Option String) :=
  fun w =>
    .ok (remote.UpdateAssignee w.calls issueID accountID)
      { w with calls := w.calls ++ [.updateAssignee issueID accountID] }
      [.updateAssignee issueID accountID (remote.UpdateAssignee w.calls issueID accountID)]

/-- The function `NewJiraService`.  The returned service only wraps the client,
which is the `remote` parameter here. -/
def NewJiraService (env : Env) (remote : Remote) : Proc Unit := do
  match env.newClientErr with
  | some err =>
    println err
    osExit 1
  | none =>
    match ← GetSelf remote with
    | .error err =>
      println err
      osExit 1
    | .ok displayName =>
      println ("Authenticated as: " ++ displayName)

/-- The method `CreateNewIssue`. -/
def CreateNewIssue (remote : Remote) (issue : Issue) (parentID : String) : Proc String := do
  emit (.enter issue parentID)
  let i : Payload :=
    { Description := issue.Description
      TypeName := issue.Type_
      ProjectKey := issue.ProjectKey
      Summary := issue.Summary
      PriorityName := issue.Priority
      Parent := none
      Assignee := none }
  let i : Payload := if parentID ≠ "" then { i with Parent := some parentID } else i
  emit (.payloadDump i)
  match ← Create remote i with
  | .error err res =>
    println ("Error creating issue: " ++ err)
    match res with
    | none => goPanic
    | some body =>
      println ("Response body: " ++ body)
      osExit 1
  | .ok createdIssue =>
    emit (.createdDump createdIssue)
    match ← UpdateAssignee remote createdIssue.ID issue.AssigneeID with
    | some assignErr =>
      println ("Error assigning issue: " ++ assignErr)
      osExit 1
    | none =>
      println ("Issue created: " ++ createdIssue.Key)
      pure createdIssue.ID

/-- The function `promptForInput`. -/
def promptForInput (promptText : String) : Proc String := fun w =>
  .ok (TrimSpace (ReadString w.stdin).1) { w with stdin := (ReadString w.stdin).2 }
    [.prompt promptText (ReadString w.stdin).1]

/-- The `for` loop of `main`; `fuel` bounds the number of iterations observed.
Returning normally is the `break`.  `toLower` is `strings.ToLower`. -/
def subtaskLoop (toLower : String → String) (remote : Remote) (flags : Flags)
    (issueID : String) : Nat → Proc Unit
  | 0 => outOfFuel
  | fuel + 1 => do
    let subtaskDescription ← promptForInput "Enter the description of the subtask: "
    let subtaskSummary ← promptForInput "Enter the summary of the subtask: "
    if subtaskDescription = "" ∨ subtaskSummary = "" then
      println "Description and Summary are required for subtasks"
      subtaskLoop toLower remote flags issueID fuel
    else
      let subtask : Issue :=
        { Description := subtaskDescription
          Type_ := "Sub-task"
          ProjectKey := flags.projectKey
          Summary := subtaskSummary
          Priority := flags.priority
          AssigneeID := flags.assigneeID }
      let _ ← CreateNewIssue remote subtask issueID
      let moreSubtasks ← promptForInput "Do you want to add another subtask? (yes/no): "
      if toLower moreSubtasks ≠ "yes" then
        pure ()
      else
        subtaskLoop toLower remote flags issueID fuel

/-- The function `main`, from the point where `flag.Parse()` has returned. -/
def main (toLower : String → String) (env : Env) (remote : Remote) (flags : Flags)
    (fuel : Nat) : Proc Unit := do
  if flags.description = "" ∨ flags.issueType = "" ∨ flags.projectKey = "" ∨
      flags.summary = "" ∨ flags.priority = "" ∨ flags.assigneeID = "" then
    println "All fields are required, if not sure check with --help"
    osExit 1
  let issue : Issue :=
    { Description := flags.description
      Type_ := flags.issueType
      ProjectKey := flags.projectKey
      Summary := flags.summary
      Priority := flags.priority
      AssigneeID := flags.assigneeID }
  NewJiraService env remote
  let issueID ← CreateNewIssue remote issue ""
  if flags.createSubtasks then
    subtaskLoop toLower remote flags issueID fuel

/-- A finished observation of the process. -/
structure Run where
  outcome : Outcome
  world : World
  trace : List Event
deriving DecidableEq

/-- Close a result: a program that returns from `main` ends with status 0. -/
def Res.toRun : Res Unit → Run
  | .ok _ w out => ⟨.exited 0, w, out⟩
  | .stop o w out => ⟨o, w, out⟩

/-- One run of the program: `init`, then `main`, on standard input `stdin` and
with no remote call made yet. -/
def run (toLower : String → String) (env : Env) (remote : Remote) (flags : Flags)
    (fuel : Nat) (stdin : List String) : Run :=
  ((do init env; main toLower env remote flags fuel : Proc Unit) ⟨stdin, []⟩).toRun

/-! ## Definitions used to state and prove the properties -/

/-- Text of the first prompt of a loop iteration. -/
abbrev descPrompt : String := "Enter the description of the subtask: "

/-- Text of the second prompt of a loop iteration. -/
abbrev summaryPrompt : String := "Enter the summary of the subtask: "

/-- Text of the continuation prompt. -/
abbrev morePrompt : String := "Do you want to add another subtask? (yes/no): "

/-- The line printed when a subtask field is empty. -/
abbrev requiredLine : String := "Description and Summary are required for subtasks"

/-- The line printed when a required flag is empty. -/
abbrev usageLine : String := "All fields are required, if not sure check with --help"

/-- The payload that `CreateNewIssue issue parentID` submits, field by field. -/
def payloadOf (issue : Issue) (parentID : String) : Payload :=
  { Description := issue.Description
    TypeName := issue.Type_
    ProjectKey := issue.ProjectKey
    Summary := issue.Summary
    PriorityName := issue.Priority
    Parent := if parentID = "" then none else some parentID
    Assignee := none }

/-- The issue that `main` builds from the flags. -/
def topIssue (flags : Flags) : Issue :=
  ⟨flags.description, flags.issueType, flags.projectKey, flags.summary, flags.priority,
    flags.assigneeID⟩

/-- The subtask that a loop iteration builds from the two strings read. -/
def subtaskOf (flags : Flags) (d m : String) : Issue :=
  ⟨TrimSpace d, "Sub-task", flags.projectKey, TrimSpace m, flags.priority, flags.assigneeID⟩

/-- The result of `CreateNewIssue`, one case for each pair of replies. -/
def createOutcome (remote : Remote) (issue : Issue) (parentID : String) (w : World) :
    Res String :=
  match remote.Create w.calls (payloadOf issue parentID) with
  | .error err none =>
    .stop .panicked ⟨w.stdin, w.calls ++ [.create (payloadOf issue parentID)]⟩
      [.enter issue parentID, .payloadDump (payloadOf issue parentID),
        .create (payloadOf issue parentID) (.error err none),
        .println ("Error creating issue: " ++ err)]
  | .error err (some body) =>
    .stop (.exited 1) ⟨w.stdin, w.calls ++ [.create (payloadOf issue parentID)]⟩
      [.enter issue parentID, .payloadDump (payloadOf issue parentID),
        .create (payloadOf issue parentID) (.error err (some body)),
        .println ("Error creating issue: " ++ err), .println ("Response body: " ++ body)]
  | .ok c =>
    match remote.UpdateAssignee (w.calls ++ [.create (payloadOf issue parentID)]) c.ID
        issue.AssigneeID with
    | some e =>
      .stop (.exited 1)
        ⟨w.stdin, w.calls ++ [.create (payloadOf issue parentID)] ++
          [.updateAssignee c.ID issue.AssigneeID]⟩
        [.enter issue parentID, .payloadDump (payloadOf issue parentID),
          .create (payloadOf issue parentID) (.ok c), .createdDump c,
          .updateAssignee c.ID issue.AssigneeID (some e),
          .println ("Error assigning issue: " ++ e)]
    | none =>
      .ok c.ID
        ⟨w.stdin, w.calls ++ [.create (payloadOf issue parentID)] ++
          [.updateAssignee c.ID issue.AssigneeID]⟩
        [.enter issue parentID, .payloadDump (payloadOf issue parentID),
          .create (payloadOf issue parentID) (.ok c), .createdDump c,
          .updateAssignee c.ID issue.AssigneeID none, .println ("Issue created: " ++ c.Key)]

/-- The events of a call of `CreateNewIssue` that returns: the issue `c` was
created and assigned. -/
def createdEvents (issue : Issue) (parentID : String) (c : Created) : List Event :=
  [.enter issue parentID, .payloadDump (payloadOf issue parentID),
    .create (payloadOf issue parentID) (.ok c), .createdDump c,
    .updateAssignee c.ID issue.AssigneeID none, .println ("Issue created: " ++ c.Key)]

/-- The events and the outcome of a call of `CreateNewIssue` that ends the
process. -/
inductive CreateStop (issue : Issue) (parentID : String) : List Event → Outcome → Prop where
  | nilResponse (err : String) :
    CreateStop issue parentID
      [.enter issue parentID, .payloadDump (payloadOf issue parentID),
        .create (payloadOf issue parentID) (.error err none),
        .println ("Error creating issue: " ++ err)] .panicked
  | rejected (err body : String) :
    CreateStop issue parentID
      [.enter issue parentID, .payloadDump (payloadOf issue parentID),
        .create (payloadOf issue parentID) (.error err (some body)),
        .println ("Error creating issue: " ++ err), .println ("Response body: " ++ body)]
      (.exited 1)
  | unassigned (c : Created) (assignErr : String) :
    CreateStop issue parentID
      [.enter issue parentID, .payloadDump (payloadOf issue parentID),
        .create (payloadOf issue parentID) (.ok c), .createdDump c,
        .updateAssignee c.ID issue.AssigneeID (some assignErr),
        .println ("Error assigning issue: " ++ assignErr)] (.exited 1)

/-- The traces of the subtask loop entered with parent identifier `issueID`,
with the outcome of the process at the end of the trace. -/
inductive LoopRun (toLower : String → String) (flags : Flags) (issueID : String) :
    List Event → Outcome → Prop where
  | observed : LoopRun toLower flags issueID [] .running
  | reprompt (d m : String) (t : List Event) (o : Outcome) :
    TrimSpace d = "" ∨ TrimSpace m = "" → LoopRun toLower flags issueID t o →
    LoopRun toLower flags issueID
      (.prompt descPrompt d :: .prompt summaryPrompt m :: .println requiredLine :: t) o
  | stopped (d m : String) (out : List Event) (o : Outcome) :
    TrimSpace d ≠ "" → TrimSpace m ≠ "" → CreateStop (subtaskOf flags d m) issueID out o →
    LoopRun toLower flags issueID (.prompt descPrompt d :: .prompt summaryPrompt m :: out) o
  | declined (d m : String) (c : Created) (ans : String) :
    TrimSpace d ≠ "" → TrimSpace m ≠ "" → toLower (TrimSpace ans) ≠ "yes" →
    LoopRun toLower flags issueID
      (.prompt descPrompt d :: .prompt summaryPrompt m ::
        (createdEvents (subtaskOf flags d m) issueID c ++ [.prompt morePrompt ans])) (.exited 0)
  | another (d m : String) (c : Created) (ans : String) (t : List Event) (o : Outcome) :
    TrimSpace d ≠ "" → TrimSpace m ≠ "" → toLower (TrimSpace ans) = "yes" →
    LoopRun toLower flags issueID t o →
    LoopRun toLower flags issueID
      (.prompt descPrompt d :: .prompt summaryPrompt m ::
        (createdEvents (subtaskOf flags d m) issueID c ++ .prompt morePrompt ans :: t)) o

/-- The events of `init`. -/
def initEvents (env : Env) : List Event :=
  if env.dotenvErr = none then [] else [.println ".env file missing"]

/-- Some required flag is empty. -/
def Flags.missing (flags : Flags) : Prop :=
  flags.description = "" ∨ flags.issueType = "" ∨ flags.projectKey = "" ∨
    flags.summary = "" ∨ flags.priority = "" ∨ flags.assigneeID = ""

instance (flags : Flags) : Decidable flags.missing := by
  unfold Flags.missing; infer_instance

/-- The traces of `main`, with the outcome of the process. -/
inductive MainRun (toLower : String → String) (env : Env) (flags : Flags) :
    List Event → Outcome → Prop where
  | usage : flags.missing → MainRun toLower env flags [.println usageLine] (.exited 1)
  | noClient (err : String) : ¬ flags.missing → env.newClientErr = some err →
    MainRun toLower env flags [.println err] (.exited 1)
  | noIdentity (err : String) : ¬ flags.missing → env.newClientErr = none →
    MainRun toLower env flags [.getSelf (.error err), .println err] (.exited 1)
  | stopped (name : String) (out : List Event) (o : Outcome) :
    ¬ flags.missing → env.newClientErr = none → CreateStop (topIssue flags) "" out o →
    MainRun toLower env flags
      (.getSelf (.ok name) :: .println ("Authenticated as: " ++ name) :: out) o
  | single (name : String) (c : Created) :
    ¬ flags.missing → env.newClientErr = none → flags.createSubtasks = false →
    MainRun toLower env flags
      (.getSelf (.ok name) :: .println ("Authenticated as: " ++ name) ::
        createdEvents (topIssue flags) "" c) (.exited 0)
  | subtasks (name : String) (c : Created) (t : List Event) (o : Outcome) :
    ¬ flags.missing → env.newClientErr = none → flags.createSubtasks = true →
    LoopRun toLower flags c.ID t o →
    MainRun toLower env flags
      (.getSelf (.ok name) :: .println ("Authenticated as: " ++ name) ::
        (createdEvents (topIssue flags) "" c ++ t)) o

/-- The issue returned by the first successful creation of a trace. -/
def firstCreated : List Event → Option Created
  | [] => none
  | .create _ (.ok c) :: _ => some c
  | _ :: t => firstCreated t

/-- The events of `n` loop iterations on exhausted standard input. -/
def repromptEvents : Nat → List Event
  | 0 => []
  | n + 1 =>
    .prompt descPrompt "" :: .prompt summaryPrompt "" :: .println requiredLine ::
      repromptEvents n

/-- The part of a run that comes before the subtask loop, when the loop is
reached after the creation of `c`. -/
def beforeLoop (env : Env) (flags : Flags) (name : String) (c : Created) : List Event :=
  initEvents env ++
    (.getSelf (.ok name) :: .println ("Authenticated as: " ++ name) ::
      createdEvents (topIssue flags) "" c)

/-! ### Concrete collaborators for the examples -/

/-- Lower-casing of the ASCII letters, standing for `strings.ToLower` in the
examples (the two agree on ASCII strings). -/
def lowerASCII (s : String) : String := ⟨s.data.map Char.toLower⟩

/-- A remote service on which every call succeeds: the first creation returns
issue `10001` (`AB-1`), the later ones issue `10002` (`AB-2`). -/
def demoRemote : Remote where
  GetSelf := fun _ => .ok "Sibin"
  Create := fun h _ => if h.length = 1 then .ok ⟨"10001", "AB-1"⟩ else .ok ⟨"10002", "AB-2"⟩
  UpdateAssignee := fun _ _ _ => none

/-- An environment with a `.env` file and a well-formed `JIRA_URL`. -/
def demoEnv : Env := ⟨none, none⟩

/-- The flags `--description="x" --type=Bug --project=AB --summary="s"
--priority=High --assignee=U1`. -/
def demoFlags : Flags := ⟨"x", "Bug", "AB", "s", "High", "U1", false⟩

/-- The flags of `demoFlags` with `--subtasks=true`. -/
def demoSubtaskFlags : Flags := ⟨"x", "Bug", "AB", "s", "High", "U1", true⟩

/-- Flags whose `--summary` is missing. -/
def incompleteFlags : Flags := ⟨"x", "Bug", "AB", "", "High", "U1", true⟩

/-- A remote service whose identity check succeeds and whose create-issue call
fails in transport: an error and no HTTP response. -/
def offlineRemote : Remote where
  GetSelf := fun _ => .ok "Sibin"
  Create := fun _ _ => .error "dial tcp: connection refused" none
  UpdateAssignee := fun _ _ _ => none

/-- A remote service on which every call succeeds and whose create-issue call
returns an issue with an empty identifier. -/
def blankIdRemote : Remote where
  GetSelf := fun _ => .ok "Sibin"
  Create := fun _ _ => .ok ⟨"", "AB-1"⟩
  UpdateAssignee := fun _ _ _ => none

/-- A remote service that creates issues and refuses to assign them. -/
def unassignableRemote : Remote where
  GetSelf := fun _ => .ok "Sibin"
  Create := fun _ _ => .ok ⟨"10001", "AB-1"⟩
  UpdateAssignee := fun _ _ _ => some "403 Forbidden"

/-! ## The program, case by case -/

/-- Events of a returned result. -/
@[simp] theorem Res.out_ok {α : Type} (a : α) (w : World) (out : List Event) :
    (Res.ok a w out).out = out := rfl

/-- Events of a result that ended the process. -/
@[simp] theorem Res.out_stop {α : Type} (o : Outcome) (w : World) (out : List Event) :
    (Res.stop o w out : Res α).out = out := rfl

/-- Events of a result with earlier events in front. -/
@[simp] theorem Res.out_after {α : Type} (pre : List Event) (r : Res α) :
    (r.after pre).out = pre ++ r.out := by
  cases r <;> rfl

/-- Earlier events do not change the outcome. -/
@[simp] theorem Res.toRun_after_outcome (pre : List Event) (r : Res Unit) :
    (r.after pre).toRun.outcome = r.toRun.outcome := by
  cases r <;> rfl

/-- The trace of a run is the events of its result. -/
@[simp] theorem Res.toRun_trace (r : Res Unit) : r.toRun.trace = r.out := by
  cases r <;> rfl

/-- At end of input `ReadString` returns the empty string. -/
theorem ReadString_nil : ReadString [] = ("", []) := rfl

/-- Trimming the empty string. -/
theorem TrimSpace_empty : TrimSpace "" = "" := rfl

/-- The three prompt texts differ. -/
@[simp] theorem desc_ne_more : ¬ descPrompt = morePrompt := by decide

/-- The three prompt texts differ. -/
@[simp] theorem more_ne_desc : ¬ morePrompt = descPrompt := by decide

/-- The three prompt texts differ. -/
@[simp] theorem summary_ne_more : ¬ summaryPrompt = morePrompt := by decide

/-- The three prompt texts differ. -/
@[simp] theorem more_ne_summary : ¬ morePrompt = summaryPrompt := by decide

/-- The three prompt texts differ. -/
@[simp] theorem desc_ne_summary : ¬ descPrompt = summaryPrompt := by decide

/-- The three prompt texts differ. -/
@[simp] theorem summary_ne_desc : ¬ summaryPrompt = descPrompt := by decide

/-- The function `init` returns, with the events `initEvents`. -/
theorem init_eq (env : Env) (w : World) : init env w = .ok () w (initEvents env) := by
  unfold init initEvents
  by_cases h : env.dotenvErr = none <;> simp [h, println, emit, pure]

/-- The function `NewJiraService`, case by case. -/
theorem NewJiraService_eq (env : Env) (remote : Remote) (w : World) :
    NewJiraService env remote w =
      match env.newClientErr with
      | some err => .stop (.exited 1) w [.println err]
      | none =>
        match remote.GetSelf w.calls with
        | .error err =>
          .stop (.exited 1) ⟨w.stdin, w.calls ++ [.getSelf]⟩ [.getSelf (.error err), .println err]
        | .ok displayName =>
          .ok () ⟨w.stdin, w.calls ++ [.getSelf]⟩
            [.getSelf (.ok displayName), .println ("Authenticated as: " ++ displayName)] := by
  unfold NewJiraService
  cases h : env.newClientErr with
  | some err => simp [bind, Proc.bind, println, emit, osExit, Res.after]
  | none =>
    simp only [bind, Proc.bind, GetSelf]
    cases h2 : remote.GetSelf w.calls <;>
      simp [bind, Proc.bind, println, emit, osExit, Res.after]

/-- The method `CreateNewIssue`, case by case. -/
theorem CreateNewIssue_eq (remote : Remote) (issue : Issue) (parentID : String) (w : World) :
    CreateNewIssue remote issue parentID w = createOutcome remote issue parentID w := by
  unfold CreateNewIssue createOutcome payloadOf
  simp only [bind, Proc.bind, emit, println, Create, UpdateAssignee, Res.after, pure, osExit,
    goPanic]
  by_cases hp : parentID = ""
  · simp only [hp, ne_eq, not_true_eq_false, if_false, if_true]
    cases h : remote.Create w.calls _ with
    | error err res =>
      cases res <;> simp [h, bind, Proc.bind, emit, println, Res.after, pure, osExit, goPanic]
    | ok c =>
      simp only [h, bind, Proc.bind, emit, println, Res.after, pure, osExit, UpdateAssignee]
      cases h2 : remote.UpdateAssignee _ c.ID issue.AssigneeID <;>
        simp [h2, bind, Proc.bind, emit, println, Res.after, pure, osExit]
  · simp only [hp, ne_eq, not_false_eq_true, if_false, if_true]
    cases h : remote.Create w.calls _ with
    | error err res =>
      cases res <;> simp [h, bind, Proc.bind, emit, println, Res.after, pure, osExit, goPanic]
    | ok c =>
      simp only [h, bind, Proc.bind, emit, println, Res.after, pure, osExit, UpdateAssignee]
      cases h2 : remote.UpdateAssignee _ c.ID issue.AssigneeID <;>
        simp [h2, bind, Proc.bind, emit, println, Res.after, pure, osExit]

/-- A call of `CreateNewIssue` that ends the process. -/
theorem CreateNewIssue_stop {remote : Remote} {issue : Issue} {parentID : String} {w w1 : World}
    {o : Outcome} {out : List Event}
    (h : CreateNewIssue remote issue parentID w = .stop o w1 out) :
    CreateStop issue parentID out o := by
  rw [CreateNewIssue_eq] at h
  simp only [createOutcome] at h
  split at h
  · cases h; exact .nilResponse _
  · cases h; exact .rejected _ _
  · split at h
    · cases h; exact .unassigned _ _
    · cases h

/-- A call of `CreateNewIssue` that returns: it returns the identifier of the
issue created and reads nothing from standard input. -/
theorem CreateNewIssue_ok {remote : Remote} {issue : Issue} {parentID : String} {w w1 : World}
    {a : String} {out : List Event}
    (h : CreateNewIssue remote issue parentID w = .ok a w1 out) :
    ∃ c, a = c.ID ∧ out = createdEvents issue parentID c ∧ w1.stdin = w.stdin := by
  rw [CreateNewIssue_eq] at h
  simp only [createOutcome] at h
  split at h
  · cases h
  · cases h
  · split at h
    · cases h
    · cases h; exact ⟨_, rfl, rfl, rfl⟩

/-- The function `main`, case by case. -/
theorem main_eq (toLower : String → String) (env : Env) (remote : Remote) (flags : Flags)
    (fuel : Nat) (w : World) :
    main toLower env remote flags fuel w =
      if flags.missing then .stop (.exited 1) w [.println usageLine]
      else
        match NewJiraService env remote w with
        | .stop o w1 out1 => .stop o w1 out1
        | .ok _ w1 out1 =>
          match CreateNewIssue remote (topIssue flags) "" w1 with
          | .stop o w2 out2 => .stop o w2 (out1 ++ out2)
          | .ok issueID w2 out2 =>
            if flags.createSubtasks = true then
              (subtaskLoop toLower remote flags issueID fuel w2).after (out1 ++ out2)
            else .ok () w2 (out1 ++ out2) := by
  unfold main Flags.missing topIssue
  by_cases h : flags.description = "" ∨ flags.issueType = "" ∨ flags.projectKey = "" ∨
          flags.summary = "" ∨ flags.priority = "" ∨ flags.assigneeID = ""
  · simp [bind, Proc.bind, println, emit, osExit, Res.after, h]
  · simp only [bind, Proc.bind, println, emit, osExit, Res.after, h, pure, if_false]
    cases h1 : NewJiraService env remote w with
    | stop o w1 out1 => simp
    | ok u w1 out1 =>
      simp only []
      cases h2 : CreateNewIssue remote
              ⟨flags.description, flags.issueType, flags.projectKey, flags.summary, flags.priority,
                flags.assigneeID⟩ "" w1 with
      | stop o w2 out2 => simp [Res.after]
      | ok issueID w2 out2 =>
        by_cases hs : flags.createSubtasks = true
        · simp only [hs, if_true]
          cases subtaskLoop toLower remote flags issueID fuel w2 <;> simp [Res.after]
        · simp [hs, Res.after]

/-- Without fuel the loop is only observed to be running. -/
theorem subtaskLoop_zero (toLower : String → String) (remote : Remote) (flags : Flags)
    (issueID : String) (w : World) :
    subtaskLoop toLower remote flags issueID 0 w = .stop .running w [] := rfl

/-- One iteration of the loop, case by case. -/
theorem subtaskLoop_succ (toLower : String → String) (remote : Remote) (flags : Flags)
    (issueID : String) (fuel : Nat) (w : World) :
    subtaskLoop toLower remote flags issueID (fuel + 1) w =
      if TrimSpace (ReadString w.stdin).1 = "" ∨
          TrimSpace (ReadString (ReadString w.stdin).2).1 = "" then
        (subtaskLoop toLower remote flags issueID fuel
          ⟨(ReadString (ReadString w.stdin).2).2, w.calls⟩).after
          [.prompt descPrompt (ReadString w.stdin).1,
            .prompt summaryPrompt (ReadString (ReadString w.stdin).2).1,
            .println requiredLine]
      else
        match CreateNewIssue remote
            (subtaskOf flags (ReadString w.stdin).1 (ReadString (ReadString w.stdin).2).1)
            issueID ⟨(ReadString (ReadString w.stdin).2).2, w.calls⟩ with
        | .stop o w1 out =>
          .stop o w1 (.prompt descPrompt (ReadString w.stdin).1 ::
            .prompt summaryPrompt (ReadString (ReadString w.stdin).2).1 :: out)
        | .ok _ w1 out =>
          if toLower (TrimSpace (ReadString w1.stdin).1) ≠ "yes" then
            .ok () ⟨(ReadString w1.stdin).2, w1.calls⟩
              (.prompt descPrompt (ReadString w.stdin).1 ::
                .prompt summaryPrompt (ReadString (ReadString w.stdin).2).1 ::
                (out ++ [.prompt morePrompt (ReadString w1.stdin).1]))
          else
            (subtaskLoop toLower remote flags issueID fuel
              ⟨(ReadString w1.stdin).2, w1.calls⟩).after
              (.prompt descPrompt (ReadString w.stdin).1 ::
                .prompt summaryPrompt (ReadString (ReadString w.stdin).2).1 ::
                (out ++ [.prompt morePrompt (ReadString w1.stdin).1])) := by
  rw [subtaskLoop]
  unfold subtaskOf
  simp only [bind, Proc.bind, promptForInput, Res.after]
  by_cases h : TrimSpace (ReadString w.stdin).1 = "" ∨
          TrimSpace (ReadString (ReadString w.stdin).2).1 = ""
  · simp only [h, if_true, println, emit, Proc.bind, Res.after]
    cases hl : subtaskLoop toLower remote flags issueID fuel
          ⟨(ReadString (ReadString w.stdin).2).2, w.calls⟩ <;> simp [hl, Res.after]
  · simp only [h, if_false, Proc.bind]
    cases h1 : CreateNewIssue remote
            ⟨TrimSpace (ReadString w.stdin).1, "Sub-task", flags.projectKey,
              TrimSpace (ReadString (ReadString w.stdin).2).1, flags.priority, flags.assigneeID⟩
            issueID ⟨(ReadString (ReadString w.stdin).2).2, w.calls⟩ with
    | stop o w1 out => simp [Res.after]
    | ok a w1 out =>
      simp only [Res.after, Proc.bind, promptForInput]
      by_cases h2 : toLower (TrimSpace (ReadString w1.stdin).1) = "yes"
      · simp only [h2, ne_eq, not_true_eq_false, if_false]
        cases hl : subtaskLoop toLower remote flags issueID fuel
              ⟨(ReadString w1.stdin).2, w1.calls⟩ <;> simp [hl, Res.after]
      · simp [h2, pure, Res.after]

/-- With fuel left, the loop starts with the two prompts of an iteration. -/
theorem subtaskLoop_succ_head (toLower : String → String) (remote : Remote) (flags : Flags)
    (issueID : String) (fuel : Nat) (w : World) :
    ∃ d m r, (subtaskLoop toLower remote flags issueID (fuel + 1) w).out =
      .prompt descPrompt d :: .prompt summaryPrompt m :: r := by
  rw [subtaskLoop_succ]
  split_ifs
  · exact ⟨_, _, _, by rw [Res.out_after]; rfl⟩
  · split
    · exact ⟨_, _, _, rfl⟩
    · split_ifs
      · exact ⟨_, _, _, rfl⟩
      · exact ⟨_, _, _, by rw [Res.out_after]; rfl⟩

/-- On exhausted standard input the loop only re-prompts. -/
theorem subtaskLoop_exhausted (toLower : String → String) (remote : Remote) (flags : Flags)
    (issueID : String) (calls : List Call) (fuel : Nat) :
    subtaskLoop toLower remote flags issueID fuel ⟨[], calls⟩ =
      .stop .running ⟨[], calls⟩ (repromptEvents fuel) := by
  induction fuel with
  | zero => rfl
  | succ n ih =>
    rw [subtaskLoop_succ]
    simp only [ReadString_nil, TrimSpace_empty, true_or, if_true, ih, Res.after, repromptEvents]
    rfl

/-- The whole run, case by case. -/
theorem run_eq (toLower : String → String) (env : Env) (remote : Remote) (flags : Flags)
    (fuel : Nat) (stdin : List String) :
    run toLower env remote flags fuel stdin =
      if flags.missing then ⟨.exited 1, ⟨stdin, []⟩, initEvents env ++ [.println usageLine]⟩
      else
        match env.newClientErr with
        | some err => ⟨.exited 1, ⟨stdin, []⟩, initEvents env ++ [.println err]⟩
        | none =>
          match remote.GetSelf [] with
          | .error err =>
            ⟨.exited 1, ⟨stdin, [.getSelf]⟩, initEvents env ++ [.getSelf (.error err), .println err]⟩
          | .ok name =>
            match CreateNewIssue remote (topIssue flags) "" ⟨stdin, [.getSelf]⟩ with
            | .stop o w out =>
              ⟨o, w, initEvents env ++
                (.getSelf (.ok name) :: .println ("Authenticated as: " ++ name) :: out)⟩
            | .ok issueID w out =>
              if flags.createSubtasks = true then
                ((subtaskLoop toLower remote flags issueID fuel w).after
                  (initEvents env ++
                    (.getSelf (.ok name) :: .println ("Authenticated as: " ++ name) :: out))).toRun
              else
                ⟨.exited 0, w, initEvents env ++
                  (.getSelf (.ok name) :: .println ("Authenticated as: " ++ name) :: out)⟩ := by
  unfold run
  simp only [bind, Proc.bind, init_eq, main_eq, NewJiraService_eq]
  by_cases hm : flags.missing
  · simp [hm, Res.after, Res.toRun]
  · simp only [hm, if_false]
    cases hc : env.newClientErr with
    | some err => simp [Res.after, Res.toRun]
    | none =>
      simp only []
      cases hg : remote.GetSelf [] with
      | error err => simp [Res.after, Res.toRun]
      | ok name =>
        simp only [List.nil_append]
        cases hcr : CreateNewIssue remote (topIssue flags) "" ⟨stdin, [Call.getSelf]⟩ with
        | stop o w2 out2 => simp [Res.after, Res.toRun]
        | ok a w2 out2 =>
          by_cases hs : flags.createSubtasks = true
          · simp only [hs, if_true]
            cases subtaskLoop toLower remote flags a fuel w2 <;> simp [Res.after, Res.toRun]
          · simp [hs, Res.after, Res.toRun]

/-! ## The traces of the program -/

/-- A call of `CreateNewIssue` that ends the process holds a failed remote call. -/
theorem CreateStop.has_failure {issue : Issue} {parentID : String} {out : List Event}
    {o : Outcome} (h : CreateStop issue parentID out o) : ∃ e ∈ out, e.failed = true := by
  cases h with
  | nilResponse err =>
    exact ⟨.create (payloadOf issue parentID) (.error err none), by simp, rfl⟩
  | rejected err body =>
    exact ⟨.create (payloadOf issue parentID) (.error err (some body)), by simp, rfl⟩
  | unassigned c e =>
    exact ⟨.updateAssignee c.ID issue.AssigneeID (some e), by simp, rfl⟩

/-- A stopped `CreateNewIssue` has ended the process. -/
theorem CreateStop.stop_ended {issue : Issue} {parentID : String} {out : List Event}
    {o : Outcome} (h : CreateStop issue parentID out o) : o ≠ .running := by
  cases h <;> intro h <;> cases h

/-- A stopped `CreateNewIssue` prompts for nothing. -/
theorem CreateStop.no_prompt {issue : Issue} {parentID : String} {out : List Event}
    {o : Outcome} (h : CreateStop issue parentID out o) : ∀ x ∈ out, x.isPrompt = false := by
  intro x hx
  cases h <;> simp at hx
  · rcases hx with rfl | rfl | rfl | rfl <;> rfl
  · rcases hx with rfl | rfl | rfl | rfl | rfl <;> rfl
  · rcases hx with rfl | rfl | rfl | rfl | rfl | rfl <;> rfl

/-- The events of a call of `CreateNewIssue` that returns hold no failed remote
call and no prompt. -/
theorem createdEvents_quiet (issue : Issue) (parentID : String) (c : Created) :
    ∀ x ∈ createdEvents issue parentID c, x.failed = false ∧ x.isPrompt = false := by
  intro x hx
  simp [createdEvents] at hx
  rcases hx with rfl | rfl | rfl | rfl | rfl | rfl <;> exact ⟨rfl, rfl⟩

/-- The events of `init` hold no remote call and no prompt. -/
theorem initEvents_quiet (env : Env) :
    ∀ x ∈ initEvents env, x.failed = false ∧ x.isPrompt = false := by
  intro x hx
  unfold initEvents at hx
  split_ifs at hx
  · simp at hx
  · simp at hx; subst hx; exact ⟨rfl, rfl⟩

/-- The part before the loop holds no failed remote call and no prompt. -/
theorem beforeLoop_quiet (env : Env) (flags : Flags) (name : String) (c : Created) :
    ∀ x ∈ beforeLoop env flags name c, x.failed = false ∧ x.isPrompt = false := by
  intro x hx
  simp [beforeLoop] at hx
  rcases hx with h | rfl | rfl | h
  · exact initEvents_quiet env x h
  · exact ⟨rfl, rfl⟩
  · exact ⟨rfl, rfl⟩
  · exact createdEvents_quiet _ _ _ x h

/-- The first issue created in a run that reaches the loop is the top-level one. -/
theorem firstCreated_beforeLoop (env : Env) (flags : Flags) (name : String) (c : Created)
    (tl : List Event) : firstCreated (beforeLoop env flags name c ++ tl) = some c := by
  unfold beforeLoop initEvents
  split_ifs <;> simp [firstCreated, createdEvents]

/-- Every observation of the loop is a trace of the loop grammar. -/
theorem subtaskLoop_run (toLower : String → String) (remote : Remote) (flags : Flags)
    (issueID : String) (fuel : Nat) : ∀ w : World,
    LoopRun toLower flags issueID (subtaskLoop toLower remote flags issueID fuel w).out
      (subtaskLoop toLower remote flags issueID fuel w).toRun.outcome := by
  induction fuel with
  | zero => intro w; exact .observed
  | succ n ih =>
    intro w
    rw [subtaskLoop_succ]
    split_ifs with h1
    · simp only [Res.out_after, Res.toRun_after_outcome]
      exact .reprompt _ _ _ _ h1 (ih _)
    · rw [not_or] at h1
      split
      · next o w1 out hc => exact .stopped _ _ _ _ h1.1 h1.2 (CreateNewIssue_stop hc)
      · next a w1 out hc =>
        obtain ⟨c, -, rfl, -⟩ := CreateNewIssue_ok hc
        split_ifs with h2
        · exact .declined _ _ _ _ h1.1 h1.2 h2
        · simp only [Res.out_after, Res.toRun_after_outcome]
          have := LoopRun.another _ _ c _ _ _ h1.1 h1.2 (not_not.mp h2)
            (ih ⟨(ReadString w1.stdin).2, w1.calls⟩)
          simpa using this

/-- Every run is `init` followed by a trace of the grammar of `main`. -/
theorem run_shape (toLower : String → String) (env : Env) (remote : Remote) (flags : Flags)
    (fuel : Nat) (stdin : List String) :
    ∃ t, (run toLower env remote flags fuel stdin).trace = initEvents env ++ t ∧
      MainRun toLower env flags t (run toLower env remote flags fuel stdin).outcome := by
  unfold run
  simp only [bind, Proc.bind, init_eq, main_eq, NewJiraService_eq]
  by_cases hm : flags.missing
  · simp only [hm, if_true, Res.after, Res.toRun]
    exact ⟨_, rfl, .usage hm⟩
  · simp only [hm, if_false]
    cases hc : env.newClientErr with
    | some err =>
      simp only [Res.after, Res.toRun]
      exact ⟨_, rfl, .noClient err hm hc⟩
    | none =>
      simp only []
      cases hg : remote.GetSelf [] with
      | error err =>
        simp only [Res.after, Res.toRun]
        exact ⟨_, rfl, .noIdentity err hm hc⟩
      | ok name =>
        simp only []
        cases hcr : CreateNewIssue remote (topIssue flags) "" ⟨stdin, [] ++ [Call.getSelf]⟩ with
        | stop o w2 out2 =>
          simp only [Res.after, Res.toRun]
          exact ⟨_, rfl, .stopped name out2 o hm hc (CreateNewIssue_stop hcr)⟩
        | ok a w2 out2 =>
          obtain ⟨c, rfl, rfl, -⟩ := CreateNewIssue_ok hcr
          by_cases hs : flags.createSubtasks = true
          · simp only [hs, if_true, Res.toRun_after_outcome, Res.toRun_trace, Res.out_after]
            refine ⟨_, ?_, .subtasks name c _ _ hm hc hs (subtaskLoop_run toLower remote flags c.ID fuel w2)⟩
            simp
          · simp only [hs, if_false, Res.after, Res.toRun]
            exact ⟨_, rfl, .single name c hm hc (by simpa using hs)⟩

/-- A run never prompts, or it is the part before the loop followed by a loop
trace. -/
theorem run_loop (toLower : String → String) (env : Env) (remote : Remote) (flags : Flags)
    (fuel : Nat) (stdin : List String) :
    (∀ x ∈ (run toLower env remote flags fuel stdin).trace, x.isPrompt = false) ∨
    ∃ name c tl,
      (run toLower env remote flags fuel stdin).trace = beforeLoop env flags name c ++ tl ∧
      LoopRun toLower flags c.ID tl (run toLower env remote flags fuel stdin).outcome := by
  obtain ⟨t, ht, hmr⟩ := run_shape toLower env remote flags fuel stdin
  rw [ht]
  have hinit := initEvents_quiet env
  generalize (run toLower env remote flags fuel stdin).outcome = o at hmr ⊢
  cases hmr with
  | usage _ =>
    left; intro x hx; simp at hx
    rcases hx with h | rfl
    · exact (hinit x h).2
    · rfl
  | noClient err _ _ =>
    left; intro x hx; simp at hx
    rcases hx with h | rfl
    · exact (hinit x h).2
    · rfl
  | noIdentity err _ _ =>
    left; intro x hx; simp at hx
    rcases hx with h | rfl | rfl
    · exact (hinit x h).2
    · rfl
    · rfl
  | stopped name out o _ _ hstop =>
    left; intro x hx; simp at hx
    rcases hx with h | rfl | rfl | h
    · exact (hinit x h).2
    · rfl
    · rfl
    · exact hstop.no_prompt x h
  | single name c _ _ _ =>
    left; intro x hx
    exact (beforeLoop_quiet env flags name c x hx).2
  | subtasks name c tl o _ _ _ hloop =>
    right
    exact ⟨name, c, tl, by simp [beforeLoop], hloop⟩

/-! ## What follows an event of a trace -/

/-- A suffix of `a ++ b` whose first event is unlike every event of `a` is a
suffix of `b`. -/
theorem suffix_of_append {P : Event → Bool} {a b l : List Event} {e : Event}
    (h : e :: l <:+ a ++ b) (ha : ∀ x ∈ a, P x = false) (he : P e = true) : e :: l <:+ b := by
  induction a with
  | nil => simpa using h
  | cons x a ih =>
    rw [List.cons_append, List.suffix_cons_iff] at h
    rcases h with h | h
    · have hx := ha x (by simp)
      have : e = x := by injection h
      rw [this, hx] at he
      cases he
    · exact ih h (fun y hy => ha y (by simp [hy]))

/-- When a split of `a ++ b` has, before the split point, an event unlike every
event of `a`, the part after the split point is a suffix of `b`. -/
theorem suffix_of_split {P : Event → Bool} {pre l a b : List Event}
    (h : pre ++ l = a ++ b) (hpre : ∃ x ∈ pre, P x = true) (ha : ∀ x ∈ a, P x = false) :
    l <:+ b := by
  rcases List.append_eq_append_iff.mp h with ⟨a1, rfl, rfl⟩ | ⟨c1, rfl, rfl⟩
  · obtain ⟨x, hx, hp⟩ := hpre
    rw [ha x (by simp [hx])] at hp
    cases hp
  · exact ⟨c1, rfl⟩

/-- A suffix of a run that starts with a prompt lies in the loop. -/
theorem run_prompt_suffix (toLower : String → String) (env : Env) (remote : Remote)
    (flags : Flags) (fuel : Nat) (stdin : List String) {e : Event} {post : List Event}
    (hsuf : e :: post <:+ (run toLower env remote flags fuel stdin).trace)
    (hp : e.isPrompt = true) :
    ∃ name c tl,
      (run toLower env remote flags fuel stdin).trace = beforeLoop env flags name c ++ tl ∧
      LoopRun toLower flags c.ID tl (run toLower env remote flags fuel stdin).outcome ∧
      e :: post <:+ tl := by
  rcases run_loop toLower env remote flags fuel stdin with h | ⟨name, c, tl, ht, hloop⟩
  · have := h e (hsuf.subset (by simp))
    rw [this] at hp; cases hp
  · refine ⟨name, c, tl, ht, hloop, ?_⟩
    rw [ht] at hsuf
    exact suffix_of_append hsuf (fun x hx => (beforeLoop_quiet env flags name c x hx).2) hp

/-- A loop trace is empty (the observation ended) or starts with the two prompts. -/
theorem LoopRun.head {toLower : String → String} {flags : Flags} {issueID : String}
    {t : List Event} {o : Outcome} (h : LoopRun toLower flags issueID t o) :
    (t = [] ∧ o = .running) ∨
    ∃ d m rest, t = .prompt descPrompt d :: .prompt summaryPrompt m :: rest := by
  cases h with
  | observed => exact .inl ⟨rfl, rfl⟩
  | reprompt d m t o _ _ => exact .inr ⟨d, m, _, rfl⟩
  | stopped d m out o _ _ _ => exact .inr ⟨d, m, _, rfl⟩
  | declined d m c a _ _ _ => exact .inr ⟨d, m, _, rfl⟩
  | another d m c a t o _ _ _ _ => exact .inr ⟨d, m, _, rfl⟩

/-- A loop trace that ends the loop holds a failed remote call or ends with a
declined continuation prompt. -/
theorem LoopRun.loop_ended {toLower : String → String} {flags : Flags} {issueID : String}
    {t : List Event} {o : Outcome} (h : LoopRun toLower flags issueID t o) (ho : o ≠ .running) :
    (∃ e ∈ t, e.failed = true) ∨
    ∃ pre d m c ans,
      t = pre ++ .prompt descPrompt d :: .prompt summaryPrompt m ::
        (createdEvents (subtaskOf flags d m) issueID c ++ [.prompt morePrompt ans]) ∧
      TrimSpace d ≠ "" ∧ TrimSpace m ≠ "" ∧ toLower (TrimSpace ans) ≠ "yes" := by
  induction h with
  | observed => exact absurd rfl ho
  | reprompt d m t o hempty _ ih =>
    rcases ih ho with ⟨e, he, hf⟩ | ⟨pre, d1, m1, c, ans, rfl, h1, h2, h3⟩
    · exact .inl ⟨e, by simp [he], hf⟩
    · exact .inr ⟨_ :: _ :: _ :: pre, d1, m1, c, ans, rfl, h1, h2, h3⟩
  | stopped d m out o hd hm hstop =>
    obtain ⟨e, he, hf⟩ := hstop.has_failure
    exact .inl ⟨e, by simp [he], hf⟩
  | declined d m c ans hd hm hno =>
    exact .inr ⟨[], d, m, c, ans, rfl, hd, hm, hno⟩
  | another d m c ans t o hd hm hyes _ ih =>
    rcases ih ho with ⟨e, he, hf⟩ | ⟨pre, d1, m1, c1, a1, rfl, h1, h2, h3⟩
    · exact .inl ⟨e, by simp [he], hf⟩
    · refine .inr ⟨.prompt descPrompt d :: .prompt summaryPrompt m ::
        (createdEvents (subtaskOf flags d m) issueID c ++ .prompt morePrompt ans :: pre),
        d1, m1, c1, a1, ?_, h1, h2, h3⟩
      simp

/-- An answer other than "yes" is the last event of a loop trace, and the
process then exits with status 0. -/
theorem LoopRun.declined_last {toLower : String → String} {flags : Flags} {issueID : String}
    {t : List Event} {o : Outcome} (h : LoopRun toLower flags issueID t o)
    {ans : String} {post : List Event} (hsuf : .prompt morePrompt ans :: post <:+ t)
    (hno : toLower (TrimSpace ans) ≠ "yes") : post = [] ∧ o = .exited 0 := by
  induction h with
  | observed => simp at hsuf
  | reprompt d m t o _ _ ih =>
    simp [List.suffix_cons_iff] at hsuf
    exact ih hsuf
  | stopped d m out o _ _ hstop =>
    cases hstop <;> simp [List.suffix_cons_iff] at hsuf
  | declined d m c a _ _ _ =>
    simp [List.suffix_cons_iff, createdEvents] at hsuf
    exact ⟨hsuf.2, rfl⟩
  | another d m c a t o _ _ hyes _ ih =>
    simp [List.suffix_cons_iff, createdEvents] at hsuf
    rcases hsuf with ⟨rfl, -⟩ | hsuf
    · exact absurd hyes hno
    · exact ih hsuf

/-- In a loop trace, two prompts with an empty answer are followed by the notice
and then by the next iteration. -/
theorem LoopRun.after_empty {toLower : String → String} {flags : Flags} {issueID : String}
    {t : List Event} {o : Outcome} (h : LoopRun toLower flags issueID t o)
    {d m : String} {post : List Event}
    (hsuf : .prompt descPrompt d :: .prompt summaryPrompt m :: post <:+ t)
    (hempty : TrimSpace d = "" ∨ TrimSpace m = "") :
    ∃ rest, post = .println requiredLine :: rest ∧
      ((rest = [] ∧ o = .running) ∨
        ∃ d1 m1 rest1, rest = .prompt descPrompt d1 :: .prompt summaryPrompt m1 :: rest1) := by
  induction h with
  | observed => simp at hsuf
  | reprompt d0 m0 t o _ ht ih =>
    simp [List.suffix_cons_iff] at hsuf
    rcases hsuf with ⟨-, -, rfl⟩ | hsuf
    · exact ⟨t, rfl, ht.head⟩
    · exact ih hsuf
  | stopped d0 m0 out o hd hm hstop =>
    cases hstop <;> simp [List.suffix_cons_iff] at hsuf <;>
      (obtain ⟨rfl, rfl, -⟩ := hsuf; rcases hempty with h | h <;> contradiction)
  | declined d0 m0 c a hd hm _ =>
    simp [List.suffix_cons_iff, createdEvents] at hsuf
    obtain ⟨rfl, rfl, -⟩ := hsuf
    rcases hempty with h | h <;> contradiction
  | another d0 m0 c a t o hd hm _ _ ih =>
    simp [List.suffix_cons_iff, createdEvents] at hsuf
    rcases hsuf with ⟨rfl, rfl, -⟩ | hsuf
    · rcases hempty with h | h <;> contradiction
    · exact ih hsuf

/-- In a loop trace without a failed remote call, two prompts with non-empty
answers are followed by the creation of that subtask and the continuation
prompt. -/
theorem LoopRun.after_valid {toLower : String → String} {flags : Flags} {issueID : String}
    {t : List Event} {o : Outcome} (h : LoopRun toLower flags issueID t o)
    (hok : ∀ e ∈ t, e.failed = false)
    {d m : String} {post : List Event}
    (hsuf : .prompt descPrompt d :: .prompt summaryPrompt m :: post <:+ t)
    (hd : TrimSpace d ≠ "") (hm : TrimSpace m ≠ "") :
    ∃ c ans rest,
      post = createdEvents (subtaskOf flags d m) issueID c ++ .prompt morePrompt ans :: rest := by
  induction h with
  | observed => simp at hsuf
  | reprompt d0 m0 t o hempty _ ih =>
    simp [List.suffix_cons_iff] at hsuf
    rcases hsuf with ⟨rfl, rfl, -⟩ | hsuf
    · rcases hempty with h | h <;> contradiction
    · exact ih (fun e he => hok e (by simp [he])) hsuf
  | stopped d0 m0 out o _ _ hstop =>
    obtain ⟨e, he, hf⟩ := hstop.has_failure
    rw [hok e (by simp [he])] at hf
    cases hf
  | declined d0 m0 c a _ _ _ =>
    simp [List.suffix_cons_iff, createdEvents] at hsuf
    obtain ⟨rfl, rfl, rfl⟩ := hsuf
    exact ⟨c, a, [], rfl⟩
  | another d0 m0 c a t o _ _ _ _ ih =>
    simp [List.suffix_cons_iff, createdEvents] at hsuf
    rcases hsuf with ⟨rfl, rfl, rfl⟩ | hsuf
    · exact ⟨c, a, t, rfl⟩
    · exact ih (fun e he => hok e (by simp [he])) hsuf

/-- In a loop trace every call of `CreateNewIssue` has the loop's parent
identifier and is followed by the submission of its payload. -/
theorem LoopRun.enter_parent {toLower : String → String} {flags : Flags} {issueID : String}
    {t : List Event} {o : Outcome} (h : LoopRun toLower flags issueID t o)
    {issue : Issue} {parentID : String} {post : List Event}
    (hsuf : .enter issue parentID :: post <:+ t) :
    parentID = issueID ∧ ∃ reply rest,
      post = .payloadDump (payloadOf issue issueID) ::
        .create (payloadOf issue issueID) reply :: rest := by
  induction h with
  | observed => simp at hsuf
  | reprompt d0 m0 t o _ _ ih =>
    simp [List.suffix_cons_iff] at hsuf
    exact ih hsuf
  | stopped d0 m0 out o _ _ hstop =>
    cases hstop <;> simp [List.suffix_cons_iff] at hsuf <;>
      (obtain ⟨⟨rfl, rfl⟩, rfl⟩ := hsuf; exact ⟨rfl, _, _, rfl⟩)
  | declined d0 m0 c a _ _ _ =>
    simp [List.suffix_cons_iff, createdEvents] at hsuf
    obtain ⟨⟨rfl, rfl⟩, rfl⟩ := hsuf
    exact ⟨rfl, _, _, rfl⟩
  | another d0 m0 c a t o _ _ _ _ ih =>
    simp [List.suffix_cons_iff, createdEvents] at hsuf
    rcases hsuf with ⟨⟨rfl, rfl⟩, rfl⟩ | hsuf
    · exact ⟨rfl, _, _, rfl⟩
    · exact ih hsuf

/-- After a failed remote call a stopped `CreateNewIssue` only prints, and the
process ends with a non-zero status. -/
theorem CreateStop.stop_failure_last {issue : Issue} {parentID : String} {out : List Event}
    {o : Outcome} (h : CreateStop issue parentID out o) {e : Event} {post : List Event}
    (hsuf : e :: post <:+ out) (hf : e.failed = true) :
    (∀ x ∈ post, ∃ s, x = .println s) ∧ ∃ c, o.status = some c ∧ c ≠ 0 := by
  cases h with
  | nilResponse err =>
    simp [List.suffix_cons_iff] at hsuf
    rcases hsuf with ⟨rfl, rfl⟩ | ⟨rfl, rfl⟩ | ⟨rfl, rfl⟩ | ⟨rfl, rfl⟩ <;>
      simp [Event.failed, Outcome.status] at hf ⊢
  | rejected err body =>
    simp [List.suffix_cons_iff] at hsuf
    rcases hsuf with ⟨rfl, rfl⟩ | ⟨rfl, rfl⟩ | ⟨rfl, rfl⟩ | ⟨rfl, rfl⟩ | ⟨rfl, rfl⟩ <;>
      simp [Event.failed, Outcome.status] at hf ⊢
  | unassigned c assignErr =>
    simp [List.suffix_cons_iff] at hsuf
    rcases hsuf with ⟨rfl, rfl⟩ | ⟨rfl, rfl⟩ | ⟨rfl, rfl⟩ | ⟨rfl, rfl⟩ | ⟨rfl, rfl⟩ | ⟨rfl, rfl⟩ <;>
      simp [Event.failed, Outcome.status] at hf ⊢

/-- After a failed remote call a loop trace only prints, and the process ends
with a non-zero status. -/
theorem LoopRun.loop_failure_last {toLower : String → String} {flags : Flags} {issueID : String}
    {t : List Event} {o : Outcome} (h : LoopRun toLower flags issueID t o)
    {e : Event} {post : List Event} (hsuf : e :: post <:+ t) (hf : e.failed = true) :
    (∀ x ∈ post, ∃ s, x = .println s) ∧ ∃ c, o.status = some c ∧ c ≠ 0 := by
  induction h with
  | observed => simp at hsuf
  | reprompt d m t o _ _ ih =>
    refine ih (suffix_of_append (P := Event.failed)
      (a := [.prompt descPrompt d, .prompt summaryPrompt m, .println requiredLine]) hsuf ?_ hf)
    intro x hx
    simp at hx
    rcases hx with rfl | rfl | rfl <;> rfl
  | stopped d m out o _ _ hstop =>
    refine hstop.stop_failure_last (suffix_of_append (P := Event.failed)
      (a := [.prompt descPrompt d, .prompt summaryPrompt m]) hsuf ?_ hf) hf
    intro x hx
    simp at hx
    rcases hx with rfl | rfl <;> rfl
  | declined d m c a _ _ _ =>
    have : e ∈ .prompt descPrompt d :: .prompt summaryPrompt m ::
        (createdEvents (subtaskOf flags d m) issueID c ++ [.prompt morePrompt a]) :=
      hsuf.subset (by simp)
    simp at this
    rcases this with rfl | rfl | h | rfl
    · cases hf
    · cases hf
    · rw [(createdEvents_quiet _ _ _ e h).1] at hf; cases hf
    · cases hf
  | another d m c a t o _ _ _ _ ih =>
    refine ih (suffix_of_append (P := Event.failed)
      (a := .prompt descPrompt d :: .prompt summaryPrompt m ::
        (createdEvents (subtaskOf flags d m) issueID c ++ [.prompt morePrompt a]))
      (by simpa using hsuf) ?_ hf)
    intro x hx
    simp at hx
    rcases hx with rfl | rfl | h | rfl
    · rfl
    · rfl
    · exact (createdEvents_quiet _ _ _ x h).1
    · rfl

/-- After a failed remote call a trace of `main` only prints, and the process
ends with a non-zero status. -/
theorem MainRun.main_failure_last {toLower : String → String} {env : Env} {flags : Flags}
    {t : List Event} {o : Outcome} (h : MainRun toLower env flags t o)
    {e : Event} {post : List Event} (hsuf : e :: post <:+ initEvents env ++ t)
    (hf : e.failed = true) :
    (∀ x ∈ post, ∃ s, x = .println s) ∧ ∃ c, o.status = some c ∧ c ≠ 0 := by
  have hinit : ∀ x ∈ initEvents env, x.failed = false := fun x hx => (initEvents_quiet env x hx).1
  have hs := suffix_of_append hsuf hinit hf
  cases h with
  | usage _ =>
    simp [List.suffix_cons_iff] at hs
    obtain ⟨rfl, -⟩ := hs
    cases hf
  | noClient err _ _ =>
    simp [List.suffix_cons_iff] at hs
    obtain ⟨rfl, -⟩ := hs
    cases hf
  | noIdentity err _ _ =>
    simp [List.suffix_cons_iff] at hs
    rcases hs with ⟨rfl, rfl⟩ | ⟨rfl, rfl⟩
    · exact ⟨by simp, 1, rfl, by decide⟩
    · cases hf
  | stopped name out o _ _ hstop =>
    refine hstop.stop_failure_last (suffix_of_append (P := Event.failed)
      (a := [.getSelf (.ok name), .println ("Authenticated as: " ++ name)]) hs ?_ hf) hf
    intro x hx
    simp at hx
    rcases hx with rfl | rfl <;> rfl
  | single name c _ _ _ =>
    have he : e ∈ beforeLoop env flags name c := by
      have := hsuf.subset (List.mem_cons_self e post)
      simpa [beforeLoop] using this
    rw [(beforeLoop_quiet env flags name c e he).1] at hf
    cases hf
  | subtasks name c tl o _ _ _ hloop =>
    have hs2 : e :: post <:+ beforeLoop env flags name c ++ tl := by
      simpa [beforeLoop] using hsuf
    exact hloop.loop_failure_last
      (suffix_of_append hs2 (fun x hx => (beforeLoop_quiet env flags name c x hx).1) hf) hf

/-! ## More fuel -/

/-- With fuel for one more iteration the loop shows the same events and
possibly more; when it was still running, what it shows next starts with the
two prompts of an iteration. -/
theorem subtaskLoop_more (toLower : String → String) (remote : Remote) (flags : Flags)
    (issueID : String) (fuel : Nat) : ∀ w : World,
    ∃ ext,
      (subtaskLoop toLower remote flags issueID (fuel + 1) w).out =
        (subtaskLoop toLower remote flags issueID fuel w).out ++ ext ∧
      ((subtaskLoop toLower remote flags issueID fuel w).toRun.outcome = .running →
        ∃ d1 m1 r, ext = .prompt descPrompt d1 :: .prompt summaryPrompt m1 :: r) := by
  induction fuel with
  | zero =>
    intro w
    exact ⟨(subtaskLoop toLower remote flags issueID 1 w).out, by simp [subtaskLoop_zero],
      fun _ => subtaskLoop_succ_head toLower remote flags issueID 0 w⟩
  | succ n ih =>
    intro w
    rw [subtaskLoop_succ toLower remote flags issueID (n + 1) w,
      subtaskLoop_succ toLower remote flags issueID n w]
    split_ifs with h1
    · obtain ⟨ext, he, hr⟩ := ih ⟨(ReadString (ReadString w.stdin).2).2, w.calls⟩
      refine ⟨ext, by simp [he], ?_⟩
      simpa using hr
    · split
      · next o w1 out hc =>
        refine ⟨[], by simp, fun h => ?_⟩
        exact absurd h (CreateNewIssue_stop hc).stop_ended
      · next a w1 out hc =>
        split_ifs with h2
        · refine ⟨[], by simp, fun h => ?_⟩
          cases h
        · obtain ⟨ext, he, hr⟩ := ih ⟨(ReadString w1.stdin).2, w1.calls⟩
          refine ⟨ext, by simp [he], ?_⟩
          simpa using hr

/-- With fuel for one more iteration a run shows the same events and possibly
more; when it was still running, what it shows next starts with the two prompts
of an iteration. -/
theorem run_more (toLower : String → String) (env : Env) (remote : Remote) (flags : Flags)
    (fuel : Nat) (stdin : List String) :
    ∃ ext,
      (run toLower env remote flags (fuel + 1) stdin).trace =
        (run toLower env remote flags fuel stdin).trace ++ ext ∧
      ((run toLower env remote flags fuel stdin).outcome = .running →
        ∃ d1 m1 r, ext = .prompt descPrompt d1 :: .prompt summaryPrompt m1 :: r) := by
  rw [run_eq toLower env remote flags (fuel + 1) stdin, run_eq toLower env remote flags fuel stdin]
  split_ifs with hm hs
  · exact ⟨[], by simp, fun h => by cases h⟩
  · split
    · exact ⟨[], by simp, fun h => by cases h⟩
    · split
      · exact ⟨[], by simp, fun h => by cases h⟩
      · split
        · next o w out hc =>
          exact ⟨[], by simp, fun h => absurd h (CreateNewIssue_stop hc).stop_ended⟩
        · next a w out hc =>
          obtain ⟨ext, he, hr⟩ := subtaskLoop_more toLower remote flags a fuel w
          refine ⟨ext, by simp [he], ?_⟩
          simpa using hr
  · split
    · exact ⟨[], by simp, fun h => by cases h⟩
    · split
      · exact ⟨[], by simp, fun h => by cases h⟩
      · split
        · next o w out hc =>
          exact ⟨[], by simp, fun h => absurd h (CreateNewIssue_stop hc).stop_ended⟩
        · exact ⟨[], by simp, fun h => by cases h⟩

/-- Nothing put in front. -/
theorem Res.after_nil {α : Type} (r : Res α) : r.after [] = r := by
  cases r <;> rfl

/-- Events put in front twice. -/
theorem Res.after_after {α : Type} (a b : List Event) (r : Res α) :
    (r.after b).after a = r.after (a ++ b) := by
  cases r <;> simp [Res.after]

/-- A result with events in front has ended the process only if the result had. -/
theorem Res.after_eq_stop {α : Type} {pre out : List Event} {r : Res α} {o : Outcome}
    {w : World} (h : r.after pre = .stop o w out) :
    ∃ out2, r = .stop o w out2 ∧ out = pre ++ out2 := by
  cases r with
  | ok a w1 out1 => cases h
  | stop o1 w1 out1 =>
    simp only [Res.after, Res.stop.injEq] at h
    obtain ⟨rfl, rfl, rfl⟩ := h
    exact ⟨out1, rfl, rfl⟩

/-- A loop that was still running when its fuel ran out resumes, with more
fuel, from the world it had reached. -/
theorem subtaskLoop_resume (toLower : String → String) (remote : Remote) (flags : Flags)
    (issueID : String) (k : Nat) (fuel : Nat) : ∀ (w w1 : World) (out : List Event),
    subtaskLoop toLower remote flags issueID fuel w = .stop .running w1 out →
    subtaskLoop toLower remote flags issueID (fuel + k) w =
      (subtaskLoop toLower remote flags issueID k w1).after out := by
  induction fuel with
  | zero =>
    intro w w1 out h
    rw [subtaskLoop_zero] at h
    cases h
    rw [Nat.zero_add, Res.after_nil]
  | succ n ih =>
    intro w w1 out h
    rw [show n + 1 + k = (n + k) + 1 by omega, subtaskLoop_succ]
    rw [subtaskLoop_succ] at h
    split_ifs at h ⊢ with h1
    · obtain ⟨out2, h2, rfl⟩ := Res.after_eq_stop h
      rw [ih _ _ _ h2, Res.after_after]
    · split at h
      · next o w2 out2 hc =>
        cases h
        exact absurd rfl (CreateNewIssue_stop hc).stop_ended
      · next a w2 out2 hc =>
        by_cases h3 : toLower (TrimSpace (ReadString w2.stdin).1) = "yes"
        · simp only [h3, ne_eq, not_true_eq_false, if_false] at h ⊢
          obtain ⟨out3, h4, rfl⟩ := Res.after_eq_stop h
          rw [ih _ _ _ h4, Res.after_after]
        · simp only [h3, ne_eq, not_false_eq_true, if_true] at h
          cases h

/-- A run that is still running has reached the loop; what it did before does
not depend on the fuel. -/
theorem run_running (toLower : String → String) (env : Env) (remote : Remote) (flags : Flags)
    (fuel : Nat) (stdin : List String)
    (hrun : (run toLower env remote flags fuel stdin).outcome = .running) :
    ∃ pre a w, ∀ n, run toLower env remote flags n stdin =
      ((subtaskLoop toLower remote flags a n w).after pre).toRun := by
  rw [run_eq] at hrun
  by_cases hm : flags.missing
  · rw [if_pos hm] at hrun; cases hrun
  · rw [if_neg hm] at hrun
    cases hc : env.newClientErr with
    | some err => rw [hc] at hrun; cases hrun
    | none =>
      rw [hc] at hrun
      cases hg : remote.GetSelf [] with
      | error err => rw [hg] at hrun; cases hrun
      | ok name =>
        rw [hg] at hrun
        cases hcr : CreateNewIssue remote (topIssue flags) "" ⟨stdin, [Call.getSelf]⟩ with
        | stop o w out =>
          rw [hcr] at hrun
          exact absurd hrun (CreateNewIssue_stop hcr).stop_ended
        | ok a w out =>
          rw [hcr] at hrun
          by_cases hs : flags.createSubtasks = true
          · refine ⟨initEvents env ++ (.getSelf (.ok name) ::
              .println ("Authenticated as: " ++ name) :: out), a, w, fun n => ?_⟩
            rw [run_eq, if_neg hm, hc, hg, hcr]
            simp only [hs, if_true]
          · simp only [hs, if_false] at hrun; cases hrun

/-- A run that was still running on exhausted standard input when its fuel ran
out is still running with any more fuel, and has only re-prompted. -/
theorem run_exhausted (toLower : String → String) (env : Env) (remote : Remote) (flags : Flags)
    (fuel k : Nat) (stdin : List String)
    (hrun : (run toLower env remote flags fuel stdin).outcome = .running)
    (hin : (run toLower env remote flags fuel stdin).world.stdin = []) :
    (run toLower env remote flags (fuel + k) stdin).outcome = .running ∧
    (run toLower env remote flags (fuel + k) stdin).trace =
      (run toLower env remote flags fuel stdin).trace ++ repromptEvents k := by
  obtain ⟨pre, a, w, h⟩ := run_running toLower env remote flags fuel stdin hrun
  rw [h (fuel + k)]
  rw [h fuel] at hrun hin ⊢
  cases hl : subtaskLoop toLower remote flags a fuel w with
  | ok u w1 out => rw [hl] at hrun; cases hrun
  | stop o w1 out =>
    rw [hl] at hrun hin
    simp only [Res.after, Res.toRun] at hrun hin
    subst hrun
    obtain ⟨sin, calls⟩ := w1
    simp only at hin
    subst hin
    rw [subtaskLoop_resume toLower remote flags a k fuel w _ _ hl, subtaskLoop_exhausted]
    simp [Res.after, Res.toRun]

/-! ## Properties of the program -/

/-- C1: when at least one of the six required flags is empty, then whatever the
subtasks flag, the environment, the remote service and standard input are, the
run makes no remote call (none is recorded in the world, no remote event is in
the trace) and the process exits with status 1, which is not zero. -/
theorem missing_flag_exits_before_any_remote_call (toLower : String → String) (env : Env)
    (remote : Remote) (flags : Flags) (fuel : Nat) (stdin : List String)
    (h : flags.description = "" ∨ flags.issueType = "" ∨ flags.projectKey = "" ∨
      flags.summary = "" ∨ flags.priority = "" ∨ flags.assigneeID = "") :
    (run toLower env remote flags fuel stdin).world.calls = [] ∧
    (∀ e ∈ (run toLower env remote flags fuel stdin).trace, e.isRemote = false) ∧
    (run toLower env remote flags fuel stdin).outcome = .exited 1 ∧
    ∃ c, (run toLower env remote flags fuel stdin).outcome.status = some c ∧ c ≠ 0 := by
  have hm : flags.missing := h
  rw [run_eq]
  rw [if_pos hm]
  refine ⟨rfl, ?_, rfl, 1, rfl, by decide⟩
  intro e he
  have he2 : e ∈ initEvents env ++ [Event.println usageLine] := he
  unfold initEvents at he2
  split_ifs at he2 <;> simp at he2 <;> rcases he2 with rfl | rfl <;> rfl

/-- Witness for C1: the summary flag is empty. -/
theorem missing_flag_exits_before_any_remote_call_witness :
    (run lowerASCII demoEnv demoRemote incompleteFlags 3 ["d\n"]).world.calls = [] ∧
    (∀ e ∈ (run lowerASCII demoEnv demoRemote incompleteFlags 3 ["d\n"]).trace,
      e.isRemote = false) ∧
    (run lowerASCII demoEnv demoRemote incompleteFlags 3 ["d\n"]).outcome = .exited 1 ∧
    ∃ c, (run lowerASCII demoEnv demoRemote incompleteFlags 3 ["d\n"]).outcome.status = some c ∧
      c ≠ 0 :=
  missing_flag_exits_before_any_remote_call lowerASCII demoEnv demoRemote incompleteFlags 3
    ["d\n"] (by decide)

/-- C2: when the six required flags are non-empty, the subtasks flag is false, the
client is constructed and no remote call of the run fails, the run consists of
the identity check, then one call of `CreateNewIssue` with parentId `""` whose
payload has no parent link, then the assignment of the returned issue id to the
`--assignee` value; these are the only three remote calls, standard input is left
untouched (no prompt occurs in the trace) and the process exits with status 0. -/
theorem single_issue_run (toLower : String → String) (env : Env) (remote : Remote)
    (flags : Flags) (fuel : Nat) (stdin : List String)
    (hflags : flags.description ≠ "" ∧ flags.issueType ≠ "" ∧ flags.projectKey ≠ "" ∧
      flags.summary ≠ "" ∧ flags.priority ≠ "" ∧ flags.assigneeID ≠ "")
    (hsub : flags.createSubtasks = false)
    (hclient : env.newClientErr = none)
    (hok : ∀ e ∈ (run toLower env remote flags fuel stdin).trace, e.failed = false) :
    ∃ name top,
      (run toLower env remote flags fuel stdin).trace = initEvents env ++
        [.getSelf (.ok name), .println ("Authenticated as: " ++ name),
          .enter ⟨flags.description, flags.issueType, flags.projectKey, flags.summary,
            flags.priority, flags.assigneeID⟩ "",
          .payloadDump ⟨flags.description, flags.issueType, flags.projectKey, flags.summary,
            flags.priority, none, none⟩,
          .create ⟨flags.description, flags.issueType, flags.projectKey, flags.summary,
            flags.priority, none, none⟩ (.ok top),
          .createdDump top,
          .updateAssignee top.ID flags.assigneeID none,
          .println ("Issue created: " ++ top.Key)] ∧
      (run toLower env remote flags fuel stdin).world.calls =
        [.getSelf,
          .create ⟨flags.description, flags.issueType, flags.projectKey, flags.summary,
            flags.priority, none, none⟩,
          .updateAssignee top.ID flags.assigneeID] ∧
      (run toLower env remote flags fuel stdin).world.stdin = stdin ∧
      (run toLower env remote flags fuel stdin).outcome = .exited 0 := by
  have hm : ¬ flags.missing := by
    unfold Flags.missing
    obtain ⟨h1, h2, h3, h4, h5, h6⟩ := hflags
    simp [h1, h2, h3, h4, h5, h6]
  rw [run_eq] at hok ⊢
  rw [if_neg hm] at hok ⊢
  simp only [hclient] at hok ⊢
  cases hg : remote.GetSelf [] with
  | error err =>
    rw [hg] at hok
    have := hok (.getSelf (.error err)) (by simp)
    simp [Event.failed] at this
  | ok name =>
    rw [hg] at hok
    simp only [] at hok ⊢
    rw [CreateNewIssue_eq] at hok ⊢
    simp only [createOutcome] at hok ⊢
    cases hcr : remote.Create [Call.getSelf] (payloadOf (topIssue flags) "") with
    | error err res =>
      rw [hcr] at hok
      cases res with
      | none =>
        have := hok (.create (payloadOf (topIssue flags) "") (.error err none)) (by simp)
        simp [Event.failed] at this
      | some body =>
        have := hok (.create (payloadOf (topIssue flags) "") (.error err (some body))) (by simp)
        simp [Event.failed] at this
    | ok top =>
      rw [hcr] at hok
      simp only [] at hok ⊢
      cases hua : remote.UpdateAssignee ([Call.getSelf] ++ [Call.create (payloadOf (topIssue flags) "")])
          top.ID (topIssue flags).AssigneeID with
      | some e =>
        rw [hua] at hok
        have := hok (.updateAssignee top.ID (topIssue flags).AssigneeID (some e)) (by simp)
        simp [Event.failed] at this
      | none =>
        simp only [hua]
        rw [if_neg (by rw [hsub]; decide)]
        exact ⟨name, top, rfl, rfl, rfl, rfl⟩

/-- Witness for C2 on the flags of the scenario. -/
theorem single_issue_run_witness :
    (demoFlags.description ≠ "" ∧ demoFlags.issueType ≠ "" ∧ demoFlags.projectKey ≠ "" ∧
      demoFlags.summary ≠ "" ∧ demoFlags.priority ≠ "" ∧ demoFlags.assigneeID ≠ "") ∧
    ∃ name top,
      (run lowerASCII demoEnv demoRemote demoFlags 3 ["ignored\n"]).trace = initEvents demoEnv ++
        [.getSelf (.ok name), .println ("Authenticated as: " ++ name),
          .enter ⟨"x", "Bug", "AB", "s", "High", "U1"⟩ "",
          .payloadDump ⟨"x", "Bug", "AB", "s", "High", none, none⟩,
          .create ⟨"x", "Bug", "AB", "s", "High", none, none⟩ (.ok top),
          .createdDump top,
          .updateAssignee top.ID "U1" none,
          .println ("Issue created: " ++ top.Key)] ∧
      (run lowerASCII demoEnv demoRemote demoFlags 3 ["ignored\n"]).world.calls =
        [.getSelf, .create ⟨"x", "Bug", "AB", "s", "High", none, none⟩,
          .updateAssignee top.ID "U1"] ∧
      (run lowerASCII demoEnv demoRemote demoFlags 3 ["ignored\n"]).world.stdin = ["ignored\n"] ∧
      (run lowerASCII demoEnv demoRemote demoFlags 3 ["ignored\n"]).outcome = .exited 0 :=
  ⟨by decide,
    single_issue_run lowerASCII demoEnv demoRemote demoFlags 3 ["ignored\n"] (by decide) rfl rfl
      (by decide)⟩

/-- C3: in a run without a failed remote call, whenever the two prompts of a
loop iteration both yield a non-empty trimmed string, the next events are
exactly: one call of `CreateNewIssue` whose parentId is the identifier returned
by the top-level creation and whose request has the trimmed description and
summary, type "Sub-task" and the project key, priority and assignee of the
flags; the submission of its payload; the assignment of the new issue to the
`--assignee` value; and the continuation prompt. -/
theorem valid_subtask_is_created (toLower : String → String) (env : Env)
    (remote : Remote) (flags : Flags) (fuel : Nat) (stdin : List String) (d m : String)
    (post : List Event)
    (hok : ∀ e ∈ (run toLower env remote flags fuel stdin).trace, e.failed = false)
    (hsuf : .prompt descPrompt d :: .prompt summaryPrompt m :: post <:+
      (run toLower env remote flags fuel stdin).trace)
    (hd : TrimSpace d ≠ "") (hm : TrimSpace m ≠ "") :
    ∃ top c ans rest,
      firstCreated (run toLower env remote flags fuel stdin).trace = some top ∧
      post =
        .enter ⟨TrimSpace d, "Sub-task", flags.projectKey, TrimSpace m, flags.priority,
            flags.assigneeID⟩ top.ID ::
          .payloadDump ⟨TrimSpace d, "Sub-task", flags.projectKey, TrimSpace m, flags.priority,
            if top.ID = "" then none else some top.ID, none⟩ ::
          .create ⟨TrimSpace d, "Sub-task", flags.projectKey, TrimSpace m, flags.priority,
            if top.ID = "" then none else some top.ID, none⟩ (.ok c) ::
          .createdDump c ::
          .updateAssignee c.ID flags.assigneeID none ::
          .println ("Issue created: " ++ c.Key) ::
          .prompt morePrompt ans :: rest := by
  obtain ⟨name, top, tl, ht, hloop, hs⟩ :=
    run_prompt_suffix toLower env remote flags fuel stdin hsuf rfl
  have hok2 : ∀ e ∈ tl, e.failed = false := fun e he => hok e (by rw [ht]; simp [he])
  obtain ⟨c, ans, rest, rfl⟩ := hloop.after_valid hok2 hs hd hm
  refine ⟨top, c, ans, rest, ?_, rfl⟩
  rw [ht]
  exact firstCreated_beforeLoop env flags name top _

/-- Witness for C3: one subtask is entered. -/
theorem valid_subtask_is_created_witness :
    ∃ top c ans rest,
      firstCreated (run lowerASCII demoEnv demoRemote demoSubtaskFlags 3
        ["d\n", " s \n", "no\n"]).trace = some top ∧
      [Event.enter ⟨"d", "Sub-task", "AB", "s", "High", "U1"⟩ "10001",
        .payloadDump ⟨"d", "Sub-task", "AB", "s", "High", some "10001", none⟩,
        .create ⟨"d", "Sub-task", "AB", "s", "High", some "10001", none⟩ (.ok ⟨"10002", "AB-2"⟩),
        .createdDump ⟨"10002", "AB-2"⟩, .updateAssignee "10002" "U1" none,
        .println "Issue created: AB-2", .prompt morePrompt "no\n"] =
        .enter ⟨TrimSpace "d\n", "Sub-task", "AB", TrimSpace " s \n", "High", "U1"⟩ top.ID ::
          .payloadDump ⟨TrimSpace "d\n", "Sub-task", "AB", TrimSpace " s \n", "High",
            if top.ID = "" then none else some top.ID, none⟩ ::
          .create ⟨TrimSpace "d\n", "Sub-task", "AB", TrimSpace " s \n", "High",
            if top.ID = "" then none else some top.ID, none⟩ (.ok c) ::
          .createdDump c ::
          .updateAssignee c.ID "U1" none ::
          .println ("Issue created: " ++ c.Key) ::
          .prompt morePrompt ans :: rest :=
  valid_subtask_is_created lowerASCII demoEnv demoRemote demoSubtaskFlags 3
    ["d\n", " s \n", "no\n"] "d\n" " s \n" _ (by decide) (by decide) (by decide) (by decide)

/-- C4: whenever a run shows the two prompts of a loop iteration and the
description or the summary read is empty after trimming, the only event of that
iteration is the notice that both are required (no create or assign call, no
continuation prompt, no exit); within the fuel of the observation the notice is
followed by the description prompt and the summary prompt again, unless the
observation ends there with the process still running; and the run observed
with fuel for one more iteration shows the two prompts right after the notice. -/
theorem empty_subtask_field_reprompts (toLower : String → String) (env : Env)
    (remote : Remote) (flags : Flags) (fuel : Nat) (stdin : List String) (d m : String)
    (pre post : List Event)
    (htrace : (run toLower env remote flags fuel stdin).trace =
      pre ++ .prompt descPrompt d :: .prompt summaryPrompt m :: post)
    (hempty : TrimSpace d = "" ∨ TrimSpace m = "") :
    (∃ rest, post = .println requiredLine :: rest ∧
      ((rest = [] ∧ (run toLower env remote flags fuel stdin).outcome = .running) ∨
        ∃ d1 m1 rest1, rest = .prompt descPrompt d1 :: .prompt summaryPrompt m1 :: rest1)) ∧
    ∃ d1 m1 rest1,
      (run toLower env remote flags (fuel + 1) stdin).trace =
        pre ++ .prompt descPrompt d :: .prompt summaryPrompt m :: .println requiredLine ::
          .prompt descPrompt d1 :: .prompt summaryPrompt m1 :: rest1 := by
  have hsuf : .prompt descPrompt d :: .prompt summaryPrompt m :: post <:+
      (run toLower env remote flags fuel stdin).trace := ⟨pre, htrace.symm⟩
  obtain ⟨name, c, tl, -, hloop, hs⟩ :=
    run_prompt_suffix toLower env remote flags fuel stdin hsuf rfl
  obtain ⟨rest, rfl, hrest⟩ := hloop.after_empty hs hempty
  refine ⟨⟨rest, rfl, hrest⟩, ?_⟩
  obtain ⟨ext, hext, hrun⟩ := run_more toLower env remote flags fuel stdin
  rw [hext, htrace]
  rcases hrest with ⟨rfl, ho⟩ | ⟨d1, m1, rest1, rfl⟩
  · obtain ⟨d1, m1, r, rfl⟩ := hrun ho
    exact ⟨d1, m1, r, by simp⟩
  · exact ⟨d1, m1, rest1 ++ ext, by simp⟩

/-- Witness for C4: the first description entered is blank and the fuel allows
one iteration; with fuel for a second one the prompts are shown again. -/
theorem empty_subtask_field_reprompts_witness :
    (∃ rest, [Event.println requiredLine] = .println requiredLine :: rest ∧
      ((rest = [] ∧
          (run lowerASCII demoEnv demoRemote demoSubtaskFlags 1
            ["  \n", "s\n", "d\n", "s\n", "no\n"]).outcome = .running) ∨
        ∃ d1 m1 rest1, rest = .prompt descPrompt d1 :: .prompt summaryPrompt m1 :: rest1)) ∧
    ∃ d1 m1 rest1,
      (run lowerASCII demoEnv demoRemote demoSubtaskFlags (1 + 1)
          ["  \n", "s\n", "d\n", "s\n", "no\n"]).trace =
        (run lowerASCII demoEnv demoRemote demoSubtaskFlags 1
            ["  \n", "s\n", "d\n", "s\n", "no\n"]).trace.take 8 ++
          .prompt descPrompt "  \n" :: .prompt summaryPrompt "s\n" :: .println requiredLine ::
            .prompt descPrompt d1 :: .prompt summaryPrompt m1 :: rest1 :=
  empty_subtask_field_reprompts lowerASCII demoEnv demoRemote demoSubtaskFlags 1
    ["  \n", "s\n", "d\n", "s\n", "no\n"] "  \n" "s\n"
    ((run lowerASCII demoEnv demoRemote demoSubtaskFlags 1
      ["  \n", "s\n", "d\n", "s\n", "no\n"]).trace.take 8)
    [.println requiredLine] (by decide) (by decide)

/-- C5: whenever a run shows the continuation prompt and the answer, trimmed and
lower-cased, is not "yes", that prompt is the last event of the run (no further
prompt, no further create or assign call) and the process exits with status 0. -/
theorem declined_answer_ends_run (toLower : String → String) (env : Env) (remote : Remote)
    (flags : Flags) (fuel : Nat) (stdin : List String) (ans : String) (post : List Event)
    (hsuf : .prompt morePrompt ans :: post <:+ (run toLower env remote flags fuel stdin).trace)
    (hno : toLower (TrimSpace ans) ≠ "yes") :
    post = [] ∧ (run toLower env remote flags fuel stdin).outcome = .exited 0 := by
  obtain ⟨name, c, tl, -, hloop, hs⟩ :=
    run_prompt_suffix toLower env remote flags fuel stdin hsuf rfl
  exact hloop.declined_last hs hno

/-- Witness for C5: the operator answers `No`. -/
theorem declined_answer_ends_run_witness :
    [Event.prompt morePrompt "No\n"] <:+
      (run lowerASCII demoEnv demoRemote demoSubtaskFlags 3 ["d\n", "s\n", "No\n"]).trace ∧
    lowerASCII (TrimSpace "No\n") ≠ "yes" ∧
    (run lowerASCII demoEnv demoRemote demoSubtaskFlags 3 ["d\n", "s\n", "No\n"]).outcome =
      .exited 0 :=
  ⟨by decide, by decide,
    (declined_answer_ends_run lowerASCII demoEnv demoRemote demoSubtaskFlags 3
      ["d\n", "s\n", "No\n"] "No\n" [] (by decide) (by decide)).2⟩

/-- C6, evaluated where it fails: the create-issue call fails in transport (an
error and a nil response).  `CreateNewIssue` prints the error and then
dereferences the nil response: the process panics (status 2), no
`Response body:` line is printed; the assign call is not attempted. -/
theorem create_transport_failure_panics :
    (run lowerASCII demoEnv offlineRemote demoFlags 0 []) =
      ⟨.panicked, ⟨[], [.getSelf, .create ⟨"x", "Bug", "AB", "s", "High", none, none⟩]⟩,
        [.getSelf (.ok "Sibin"), .println "Authenticated as: Sibin",
          .enter ⟨"x", "Bug", "AB", "s", "High", "U1"⟩ "",
          .payloadDump ⟨"x", "Bug", "AB", "s", "High", none, none⟩,
          .create ⟨"x", "Bug", "AB", "s", "High", none, none⟩
            (.error "dial tcp: connection refused" none),
          .println "Error creating issue: dial tcp: connection refused"]⟩ ∧
    (run lowerASCII demoEnv offlineRemote demoFlags 0 []).outcome.status = some 2 := by
  decide

/-- C7 as stated fails: the remote service reports a successful creation with an
empty identifier; the subtask loop then calls `CreateNewIssue` with the empty
parentId and the payload it submits has no parent link. -/
theorem subtask_without_parent_link :
    (run lowerASCII demoEnv blankIdRemote demoSubtaskFlags 1 ["d\n", "s\n", "no\n"]).trace =
      [.getSelf (.ok "Sibin"), .println "Authenticated as: Sibin",
        .enter ⟨"x", "Bug", "AB", "s", "High", "U1"⟩ "",
        .payloadDump ⟨"x", "Bug", "AB", "s", "High", none, none⟩,
        .create ⟨"x", "Bug", "AB", "s", "High", none, none⟩ (.ok ⟨"", "AB-1"⟩),
        .createdDump ⟨"", "AB-1"⟩, .updateAssignee "" "U1" none, .println "Issue created: AB-1",
        .prompt descPrompt "d\n", .prompt summaryPrompt "s\n",
        .enter ⟨"d", "Sub-task", "AB", "s", "High", "U1"⟩ "",
        .payloadDump ⟨"d", "Sub-task", "AB", "s", "High", none, none⟩,
        .create ⟨"d", "Sub-task", "AB", "s", "High", none, none⟩ (.ok ⟨"", "AB-1"⟩),
        .createdDump ⟨"", "AB-1"⟩, .updateAssignee "" "U1" none, .println "Issue created: AB-1",
        .prompt morePrompt "no\n"] ∧
    ∃ pre post issue i reply,
      (run lowerASCII demoEnv blankIdRemote demoSubtaskFlags 1 ["d\n", "s\n", "no\n"]).trace =
        pre ++ .enter issue "" :: .payloadDump i :: .create i reply :: post ∧
      (∃ x ∈ pre, x.isPrompt = true) ∧ i.Parent = none :=
  ⟨by decide,
    (run lowerASCII demoEnv blankIdRemote demoSubtaskFlags 1 ["d\n", "s\n", "no\n"]).trace.take 10,
    (run lowerASCII demoEnv blankIdRemote demoSubtaskFlags 1 ["d\n", "s\n", "no\n"]).trace.drop 13,
    ⟨"d", "Sub-task", "AB", "s", "High", "U1"⟩,
    ⟨"d", "Sub-task", "AB", "s", "High", none, none⟩, .ok ⟨"", "AB-1"⟩,
    by decide, ⟨.prompt descPrompt "d\n", by decide, rfl⟩, rfl⟩

/-- C7, as the code has it: every call of `CreateNewIssue` made from the subtask
loop (a call that comes after a prompt) is passed as parentId the identifier
returned by the top-level creation, and submits its payload; the payload has a
parent link to that identifier when the identifier is not empty, and no parent
link when it is empty. -/
theorem subtask_parent_is_returned_id (toLower : String → String) (env : Env)
    (remote : Remote) (flags : Flags) (fuel : Nat) (stdin : List String)
    (pre post : List Event) (issue : Issue) (parentID : String)
    (htrace : (run toLower env remote flags fuel stdin).trace =
      pre ++ .enter issue parentID :: post)
    (hloop : ∃ x ∈ pre, x.isPrompt = true) :
    ∃ top i reply rest,
      firstCreated (run toLower env remote flags fuel stdin).trace = some top ∧
      parentID = top.ID ∧
      post = .payloadDump i :: .create i reply :: rest ∧
      (top.ID ≠ "" → i.Parent = some top.ID) ∧ (top.ID = "" → i.Parent = none) := by
  rcases run_loop toLower env remote flags fuel stdin with h | ⟨name, top, tl, ht, hl⟩
  · obtain ⟨x, hx, hp⟩ := hloop
    rw [h x (by rw [htrace]; simp [hx])] at hp
    cases hp
  · have hs : .enter issue parentID :: post <:+ tl :=
      suffix_of_split (ht ▸ htrace).symm hloop
        (fun x hx => (beforeLoop_quiet env flags name top x hx).2)
    obtain ⟨rfl, reply, rest, rfl⟩ := hl.enter_parent hs
    refine ⟨top, _, reply, rest, ?_, rfl, rfl, ?_, ?_⟩
    · rw [ht]; exact firstCreated_beforeLoop env flags name top tl
    · intro h; simp [payloadOf, h]
    · intro h; simp [payloadOf, h]

/-- Witness for C7 as the code has it: the subtask of a run whose top-level
issue got the identifier `10001`. -/
theorem subtask_parent_is_returned_id_witness :
    ∃ top i reply rest,
      firstCreated
        (run lowerASCII demoEnv demoRemote demoSubtaskFlags 3 ["d\n", "s\n", "no\n"]).trace =
          some top ∧
      "10001" = top.ID ∧
      (run lowerASCII demoEnv demoRemote demoSubtaskFlags 3 ["d\n", "s\n", "no\n"]).trace.drop 11 =
        .payloadDump i :: .create i reply :: rest ∧
      (top.ID ≠ "" → i.Parent = some top.ID) ∧ (top.ID = "" → i.Parent = none) :=
  subtask_parent_is_returned_id lowerASCII demoEnv demoRemote demoSubtaskFlags 3
    ["d\n", "s\n", "no\n"]
    ((run lowerASCII demoEnv demoRemote demoSubtaskFlags 3 ["d\n", "s\n", "no\n"]).trace.take 10)
    ((run lowerASCII demoEnv demoRemote demoSubtaskFlags 3 ["d\n", "s\n", "no\n"]).trace.drop 11)
    ⟨"d", "Sub-task", "AB", "s", "High", "U1"⟩ "10001" (by decide)
    ⟨.prompt descPrompt "d\n", by decide, rfl⟩

/-- C8: whenever a remote call of a run fails (identity check, create-issue or
assign), every later event of the run is a printed line (so no remote call, no
prompt and no entry into the subtask loop follows) and the process ends with a
non-zero status. -/
theorem remote_failure_is_terminal (toLower : String → String) (env : Env)
    (remote : Remote) (flags : Flags) (fuel : Nat) (stdin : List String)
    (e : Event) (post : List Event)
    (hsuf : e :: post <:+ (run toLower env remote flags fuel stdin).trace)
    (hf : e.failed = true) :
    (∀ x ∈ post, x.isRemote = false ∧ x.isPrompt = false ∧ ∃ s, x = .println s) ∧
    ∃ c, (run toLower env remote flags fuel stdin).outcome.status = some c ∧ c ≠ 0 := by
  obtain ⟨t, ht, hmr⟩ := run_shape toLower env remote flags fuel stdin
  rw [ht] at hsuf
  obtain ⟨h1, h2⟩ := hmr.main_failure_last hsuf hf
  refine ⟨?_, h2⟩
  intro x hx
  obtain ⟨s, rfl⟩ := h1 x hx
  exact ⟨rfl, rfl, s, rfl⟩

/-- Witness for C8: the assignment of the top-level issue fails in a run with
`--subtasks=true`; the run prints the error and exits, the loop is not entered. -/
theorem remote_failure_is_terminal_witness :
    (run lowerASCII demoEnv unassignableRemote demoSubtaskFlags 3 ["d\n", "s\n"]).trace =
      [.getSelf (.ok "Sibin"), .println "Authenticated as: Sibin",
        .enter ⟨"x", "Bug", "AB", "s", "High", "U1"⟩ "",
        .payloadDump ⟨"x", "Bug", "AB", "s", "High", none, none⟩,
        .create ⟨"x", "Bug", "AB", "s", "High", none, none⟩ (.ok ⟨"10001", "AB-1"⟩),
        .createdDump ⟨"10001", "AB-1"⟩,
        .updateAssignee "10001" "U1" (some "403 Forbidden"),
        .println "Error assigning issue: 403 Forbidden"] ∧
    ((∀ x ∈ [Event.println "Error assigning issue: 403 Forbidden"],
        x.isRemote = false ∧ x.isPrompt = false ∧ ∃ s, x = .println s) ∧
      ∃ c, (run lowerASCII demoEnv unassignableRemote demoSubtaskFlags 3
        ["d\n", "s\n"]).outcome.status = some c ∧ c ≠ 0) :=
  ⟨by decide,
    remote_failure_is_terminal lowerASCII demoEnv unassignableRemote demoSubtaskFlags 3
      ["d\n", "s\n"] (.updateAssignee "10001" "U1" (some "403 Forbidden"))
      [.println "Error assigning issue: 403 Forbidden"] (by decide) rfl⟩

/-- C9: the payload that `CreateNewIssue` submits carries the description, type
name, project key, summary and priority name of the request; it has a parent
link exactly when `parentID` is not empty, and then the link is `parentID`; it
has no assignee.  The assignee identifier of the request appears only in the
assign call, which is made exactly when the creation succeeded, on the returned
issue id; no other remote call follows the creation call. -/
theorem create_payload_follows_request (remote : Remote) (issue : Issue) (parentID : String)
    (w : World) :
    ∃ i reply rest,
      (CreateNewIssue remote issue parentID w).out =
        .enter issue parentID :: .payloadDump i :: .create i reply :: rest ∧
      i.Description = issue.Description ∧ i.TypeName = issue.Type_ ∧
      i.ProjectKey = issue.ProjectKey ∧ i.Summary = issue.Summary ∧
      i.PriorityName = issue.Priority ∧
      (i.Parent ≠ none ↔ parentID ≠ "") ∧ (parentID ≠ "" → i.Parent = some parentID) ∧
      i.Assignee = none ∧
      (∀ e ∈ rest, e.isRemote = true →
        ∃ c err, reply = .ok c ∧ e = .updateAssignee c.ID issue.AssigneeID err) ∧
      (∀ c, reply = .ok c → ∃ err, .updateAssignee c.ID issue.AssigneeID err ∈ rest) := by
  have hp : (payloadOf issue parentID).Parent ≠ none ↔ parentID ≠ "" := by
    unfold payloadOf
    by_cases h : parentID = "" <;> simp [h]
  have hp2 : parentID ≠ "" → (payloadOf issue parentID).Parent = some parentID := by
    intro h
    unfold payloadOf
    simp [h]
  rw [CreateNewIssue_eq]
  simp only [createOutcome]
  cases hcr : remote.Create w.calls (payloadOf issue parentID) with
  | error err res =>
    cases res with
    | none =>
      refine ⟨_, _, _, rfl, rfl, rfl, rfl, rfl, rfl, hp, hp2, rfl, ?_, ?_⟩
      · intro e he; simp at he; subst he; simp [Event.isRemote]
      · intro c hc; cases hc
    | some body =>
      refine ⟨_, _, _, rfl, rfl, rfl, rfl, rfl, rfl, hp, hp2, rfl, ?_, ?_⟩
      · intro e he; simp at he; rcases he with rfl | rfl <;> simp [Event.isRemote]
      · intro c hc; cases hc
  | ok c =>
    simp only []
    cases hua : remote.UpdateAssignee (w.calls ++ [Call.create (payloadOf issue parentID)]) c.ID
        issue.AssigneeID with
    | some e =>
      refine ⟨_, _, _, rfl, rfl, rfl, rfl, rfl, rfl, hp, hp2, rfl, ?_, ?_⟩
      · intro x hx hr
        simp at hx
        rcases hx with rfl | rfl | rfl
        · simp [Event.isRemote] at hr
        · exact ⟨c, _, rfl, rfl⟩
        · simp [Event.isRemote] at hr
      · intro c2 hc; cases hc; exact ⟨some e, by simp⟩
    | none =>
      refine ⟨_, _, _, rfl, rfl, rfl, rfl, rfl, rfl, hp, hp2, rfl, ?_, ?_⟩
      · intro x hx hr
        simp at hx
        rcases hx with rfl | rfl | rfl
        · simp [Event.isRemote] at hr
        · exact ⟨c, _, rfl, rfl⟩
        · simp [Event.isRemote] at hr
      · intro c2 hc; cases hc; exact ⟨none, by simp⟩

/-- C10: at end of input `promptForInput` returns the empty string, so a loop
iteration that starts on exhausted standard input takes the re-prompt branch and
leaves the input exhausted: for every amount of fuel the loop is still running,
and its events are the two prompts and the notice, over and over (no create or
assign call, no continuation prompt, no exit).  For a run: when the process
stands at the start of an iteration (the fuel ran out there) with standard input
exhausted, then with any more fuel it is still running and has only added such
re-prompts.  And whenever the loop ends, from any world, its trace holds a
failed remote call or ends with the events of a valid description and summary,
a created subtask and a continuation answer that is not "yes". -/
theorem exhausted_input_never_terminates (toLower : String → String) (remote : Remote)
    (flags : Flags) (issueID : String) :
    (∀ text calls, promptForInput text ⟨[], calls⟩ = .ok "" ⟨[], calls⟩ [.prompt text ""]) ∧
    (∀ fuel calls, subtaskLoop toLower remote flags issueID fuel ⟨[], calls⟩ =
      .stop .running ⟨[], calls⟩ (repromptEvents fuel)) ∧
    (∀ env fuel k stdin,
      (run toLower env remote flags fuel stdin).outcome = .running →
      (run toLower env remote flags fuel stdin).world.stdin = [] →
      (run toLower env remote flags (fuel + k) stdin).outcome = .running ∧
      (run toLower env remote flags (fuel + k) stdin).trace =
        (run toLower env remote flags fuel stdin).trace ++ repromptEvents k) ∧
    (∀ fuel w,
      (subtaskLoop toLower remote flags issueID fuel w).toRun.outcome ≠ .running →
      (∃ e ∈ (subtaskLoop toLower remote flags issueID fuel w).out, e.failed = true) ∨
      ∃ pre d m c ans,
        (subtaskLoop toLower remote flags issueID fuel w).out =
          pre ++ .prompt descPrompt d :: .prompt summaryPrompt m ::
            (createdEvents (subtaskOf flags d m) issueID c ++ [.prompt morePrompt ans]) ∧
        TrimSpace d ≠ "" ∧ TrimSpace m ≠ "" ∧ toLower (TrimSpace ans) ≠ "yes") :=
  ⟨fun _ _ => rfl, fun fuel calls => subtaskLoop_exhausted toLower remote flags issueID calls fuel,
    fun env fuel k stdin => run_exhausted toLower env remote flags fuel k stdin,
    fun fuel w ho => (subtaskLoop_run toLower remote flags issueID fuel w).loop_ended ho⟩

/-- Witness for C10: a loop that ends because the operator declines. -/
theorem exhausted_input_never_terminates_witness :
    (∃ e ∈ (subtaskLoop lowerASCII demoRemote demoFlags "10001" 2
        ⟨["d\n", "s\n", "no\n"], [.getSelf]⟩).out, e.failed = true) ∨
    ∃ pre d m c ans,
      (subtaskLoop lowerASCII demoRemote demoFlags "10001" 2
        ⟨["d\n", "s\n", "no\n"], [.getSelf]⟩).out =
        pre ++ .prompt descPrompt d :: .prompt summaryPrompt m ::
          (createdEvents (subtaskOf demoFlags d m) "10001" c ++ [.prompt morePrompt ans]) ∧
      TrimSpace d ≠ "" ∧ TrimSpace m ≠ "" ∧ lowerASCII (TrimSpace ans) ≠ "yes" :=
  (exhausted_input_never_terminates lowerASCII demoRemote demoFlags "10001").2.2.2 2
    ⟨["d\n", "s\n", "no\n"], [.getSelf]⟩ (by decide)

end JiraCli
